import Mathlib

/-!
Shallow embedding of the registration / payment core of the icpc-2025 backend
(`competitions`, `presentations`, `payment` Django apps), for checking the
natural-language specification against the code.

Modelling conventions:
* Django rows become Lean structures; each table is a `List` field of `St`.
* Each service function decorated with `@transaction.atomic` is embedded as a
  `_body` state transformer of type `St → St × Except Err α` wrapped by
  `atomic`, which restores the input state when an exception propagates out of
  the block (Django rolls the transaction / savepoint back in that case).
* Raised exceptions become `Err` values; `CustomAPIException(code, message,
  status_code)` is embedded as `Err.api code statusCode` (messages are
  free-form f-strings and are not modelled).
* `timezone.now()` is an explicit `now : Nat` argument (time unit: minutes, so
  `timedelta(minutes=k)` is `+ k`).
* `secrets.token_urlsafe` randomness is an explicit `tokenFor : Nat → String`
  argument giving the fresh token of the i-th created member.
* The payment gateway (network I/O in `payment/services.py`) is an explicit
  `Gateway` argument; a `requests.RequestException` is `GwAnswer.transportError`.
* `send_status_change_email` appends `(to, status_code)` to an email log
  (the `extra` context payload is not modelled).
-/

/-- Error-code constants referenced from `acm.error_codes` (the module only
defines integer constants and is referenced by name throughout the services;
only the identity of each code matters here). -/
inductive EC where
  | ACC_EMAIL_NOT_VERIFIED
  | COMP_TEAM_SIZE_INVALID
  | COMP_FIELD_INVALID
  | COMP_DUPLICATE_PARTICIPANT_EMAIL
  | COMP_PARTICIPANT_ALREADY_ACTIVE
  | COMP_INVALID_OR_EXPIRED_TOKEN
  | COMP_TOKEN_EXPIRED
  | COMP_PAYMENT_INIT_FAILED
  | COMP_ONLY_SUBMITTER_CAN_CANCEL
  | COMP_CANCELLATION_NOT_APPLICABLE
  | COMP_CANCELLATION_NOT_ALLOWED_STATE
  | COMP_NOT_IN_INVESTIGATION_STATE
  | COMP_BACKOFFICE_REJECT_INVALID_STATE
  | REG_CHILD_INVALID_SELECTION
  | REG_ALREADY_OWNED
  | REG_CHILD_ALREADY_OWNED
  | REG_ALREADY_FINAL_OR_APPROVED
  | REG_REJECTION_REASON_REQUIRED
  | PAY_AUTH_REQUIRED
  | PAY_MERCHANT_NOT_CONFIGURED
  | PAY_EXISTING_SUCCESS
  | PAY_INIT_FAILED
  | PAY_GATEWAY_REFUSED
  | PAY_NOT_FOUND_FOR_USER
  deriving DecidableEq, Repr

/-- Python exceptions crossing function boundaries in the embedded code. -/
inductive Err where
  | api (code : EC) (statusCode : Nat)
  | doesNotExist
  | multipleObjectsReturned
  | valueError
  | requestExc (msg : String)
  deriving DecidableEq, Repr

/-- competitions/models.py `FieldRequirement`. -/
inductive FieldRequirement where
  | REQUIRED
  | OPTIONAL
  | HIDDEN
  deriving DecidableEq, Repr

/-- competitions/models.py `CompetitionFieldConfig` (one-to-one with a
competition; `validate_participant_payload` consults the eight fields in its
list, the other two exist on the row but are not read by the services). -/
structure CompetitionFieldConfig where
  first_name : FieldRequirement
  last_name : FieldRequirement
  national_id : FieldRequirement
  student_number : FieldRequirement
  student_card_image : FieldRequirement
  national_id_image : FieldRequirement
  tshirt_size : FieldRequirement
  phone_number : FieldRequirement
  email : FieldRequirement
  university_name : FieldRequirement
  deriving DecidableEq, Repr

/-- competitions/models.py `Competition` (fields read by the services;
`signup_fee` is a Decimal converted with `int(...)` at each use, embedded
directly as an integer). `field_config` is the optional one-to-one row
(`getattr(competition, "field_config", None)`). -/
structure Competition where
  id : Nat
  name : String
  minTeamSize : Nat
  maxTeamSize : Nat
  signupFee : Int
  requiresBackofficeApproval : Bool
  isActive : Bool
  fieldConfig : Option CompetitionFieldConfig
  deriving DecidableEq, Repr

/-- competitions/models.py `TeamRequest.Status`. -/
inductive TRStatus where
  | PENDING_APPROVAL
  | PENDING_INVESTIGATION
  | PENDING_PAYMENT
  | FINAL
  | PAYMENT_REJECTED
  | REJECTED
  | CANCELLED
  deriving DecidableEq, Repr

/-- competitions/models.py `TeamRequest`. -/
structure TeamRequest where
  id : Nat
  competitionId : Nat
  submitterId : Nat
  teamName : String
  status : TRStatus
  paymentLink : String
  deriving DecidableEq, Repr

/-- competitions/models.py `TeamMember.ApprovalStatus`. -/
inductive ApprovalStatus where
  | PENDING
  | APPROVED
  | REJECTED
  deriving DecidableEq, Repr

/-- competitions/models.py `TeamMember`. `approval_token_hash` is a blank-able
char column holding an HMAC-SHA256 hexdigest; the cleared value `""` (64 hex
chars can never equal it) is embedded as `none`. -/
structure TeamMember where
  id : Nat
  requestId : Nat
  userId : Option Nat
  firstName : String
  lastName : String
  email : String
  phoneNumber : String
  nationalId : String
  studentCardImage : String
  nationalIdImage : String
  tshirtSize : String
  universityName : String
  studentNumber : String
  approvalStatus : ApprovalStatus
  approvalTokenHash : Option String
  approvalTokenExpiresAt : Option Nat
  approvalAt : Option Nat
  deriving DecidableEq, Repr

/-- presentations/models.py `Course` (fields read by the services; `capacity`
is `PositiveIntegerField(default=0)`, not nullable; `children` is the
many-to-many self reference). -/
structure Course where
  id : Nat
  name : String
  slug : String
  capacity : Nat
  price : Int
  childrenIds : List Nat
  requiresApproval : Bool
  isActive : Bool
  deriving DecidableEq, Repr

/-- presentations/models.py `Registration.Status`. -/
inductive RegStatus where
  | SUBMITTED
  | RESERVED
  | QUEUED
  | APPROVED
  | FINAL
  | REJECTED
  | CANCELLED
  deriving DecidableEq, Repr

/-- presentations/models.py `Registration` (unique per (course, user)). -/
structure Registration where
  id : Nat
  courseId : Nat
  userId : Nat
  status : RegStatus
  resumeUrl : String
  rejectionReason : String
  paymentLink : String
  submittedAt : Nat
  decidedAt : Option Nat
  deriving DecidableEq, Repr

/-- presentations/models.py `RegistrationItem` (unique per
(registration, child_course); identified here by that pair). -/
structure RegistrationItem where
  registrationId : Nat
  childCourseId : Nat
  price : Int
  deriving DecidableEq, Repr

/-- payment/models.py `Payment.Status` (`PG_INITIATE_ERROR` is the
"Gateway initiate error" status). -/
inductive PayStatus where
  | PENDING
  | SUCCESSFUL
  | FAILED
  | PG_INITIATE_ERROR
  deriving DecidableEq, Repr

/-- payment/models.py `Payment.TargetType`. -/
inductive TargetType where
  | COURSE
  | COMPETITION
  deriving DecidableEq, Repr

/-- The one key of the free-form `Payment.metadata` JSON document that the
services read back (`verify_by_authority` consults `metadata.get("reg_id")`);
the other keys written (`stage`, `exc`, `resp`, `fee_type`, `fee`,
`parent_course_id`, `child_course_ids`) are never read. -/
structure PaymentMeta where
  regId : Option Nat
  deriving DecidableEq, Repr

/-- payment/models.py `Payment`. `targetId` is embedded as the string the
services store (`target_id=str(target_id)`, "store as string") and that
`domain_hooks` parse with `.split(",")`; the model layer however declares the
column `PositiveIntegerField` — see `targetIdFieldPrep` below for that
declaration's value coercion. -/
structure Payment where
  id : Nat
  userId : Nat
  targetType : TargetType
  targetId : String
  amount : Int
  status : PayStatus
  authority : String
  refId : String
  cardPan : String
  cardHash : String
  zarinpalCode : String
  zarinpalMessage : String
  description : String
  metadata : PaymentMeta
  deriving DecidableEq, Repr

/-- Decimal digit value of an ASCII character. -/
def charDigit? (c : Char) : Option Nat :=
  if 48 ≤ c.toNat && c.toNat ≤ 57 then some (c.toNat - 48) else none

/-- Accumulator loop of the decimal parse. -/
def digitsToNatAux : Nat → List Char → Option Nat
  | acc, [] => some acc
  | acc, c :: cs =>
    match charDigit? c with
    | some d => digitsToNatAux (acc * 10 + d) cs
    | none => none

/-- Parse a non-empty all-digit character list as a natural number. -/
def digitsToNat? : List Char → Option Nat
  | [] => none
  | cs => digitsToNatAux 0 cs

/-- ASCII whitespace (space, tab, LF, CR), as stripped by Python. -/
def isSpaceChar (c : Char) : Bool :=
  c.toNat == 32 || c.toNat == 9 || c.toNat == 10 || c.toNat == 13

/-- `str.strip()` over the character list. -/
def trimChars (cs : List Char) : List Char :=
  ((cs.dropWhile isSpaceChar).reverse.dropWhile isSpaceChar).reverse

/-- Python `int(s)` for the nonnegative decimal strings that carry ids in this
code (whitespace stripped); `none` embeds the `ValueError` raised on any other
content, such as a CSV bundle. -/
def pyInt? (s : String) : Option Nat :=
  digitsToNat? (trimChars s.data)

/-- Django's `PositiveIntegerField` prepares a value for the database with
`int(value)`; for a decimal string this parses it, for anything else
(such as a CSV bundle `"42,101"`) it raises `ValueError`, embedded as `none`.
This is the declared column type of payment/models.py `Payment.target_id`. -/
def targetIdFieldPrep (s : String) : Option Nat :=
  pyInt? s

/-- accounts/models.py `UserExtraData` (fields touched by
`submit_registration`). `answers` is a free-form JSON document, embedded as an
association list merged key-by-key. -/
structure UserExtraData where
  userId : Nat
  codeforcesHandle : String
  codeforcesScore : Int
  answers : List (String × String)
  deriving DecidableEq, Repr

/-- The authenticated user object handed to the services (accounts user model
fields the embedded code reads). -/
structure User where
  id : Nat
  email : String
  phoneNumber : Option String
  firstName : String
  lastName : String
  isAuthenticated : Bool
  isEmailVerified : Bool
  deriving DecidableEq, Repr

/-- One `send_status_change_email(to, status_code, extra)` call
(the `extra` context is not modelled). -/
structure Email where
  toAddr : String
  statusCode : String
  deriving DecidableEq, Repr

/-- The relational store: one list per table, an email log, and the
auto-increment id counter. -/
structure St where
  competitions : List Competition
  users : List User
  teamRequests : List TeamRequest
  teamMembers : List TeamMember
  courses : List Course
  registrations : List Registration
  registrationItems : List RegistrationItem
  payments : List Payment
  userExtra : List UserExtraData
  emails : List Email
  nextId : Nat
  deriving DecidableEq, Repr

/-- A gateway HTTP round-trip: either a decoded response or a
`requests.RequestException`. -/
inductive GwAnswer (α : Type) where
  | ok (a : α)
  | transportError (msg : String)
  deriving DecidableEq, Repr

/-- Decoded `data` object of a Zarinpal request.json response. -/
structure GwRequestResp where
  code : Int
  authority : String
  message : String
  deriving DecidableEq, Repr

/-- Decoded `data` object of a Zarinpal verify.json response. -/
structure GwVerifyResp where
  code : Int
  refId : String
  cardPan : String
  cardHash : String
  message : String
  deriving DecidableEq, Repr

/-- The external payment gateway as seen by one service call: the
unVerified.json response, the verify.json response per authority, and the
request.json response. -/
structure Gateway where
  unverifiedRaw : GwAnswer (Int × List String)
  verify : String → GwAnswer GwVerifyResp
  request : GwAnswer GwRequestResp

/-- Configuration read from Django settings by the payment services. -/
structure PayConfig where
  merchantId : String
  deriving DecidableEq, Repr

/-- payment/services.py `StartPayResult`. -/
structure StartPayResult where
  url : String
  payment : Payment
  authority : String
  deriving DecidableEq, Repr

/-- Result of one embedded service call: the store after the call together
with the returned value or the exception that propagated. -/
abbrev Res (α : Type) : Type := St × Except Err α

/-- Django's `@transaction.atomic`: if an exception propagates out of the
decorated function, the transaction (or savepoint, when nested) is rolled
back, restoring the store as of entry. -/
def atomic {α : Type} (f : St → Res α) : St → Res α :=
  fun st =>
    match f st with
    | (st2, Except.ok a) => (st2, Except.ok a)
    | (_, Except.error e) => (st, Except.error e)

/-- Append one `send_status_change_email` call to the log. -/
def sendEmail (st : St) (toAddr : String) (code : String) : St :=
  { st with emails := st.emails ++ [⟨toAddr, code⟩] }

def findCompetition (st : St) (id : Nat) : Option Competition :=
  st.competitions.find? (fun c => c.id == id)

def findUser (st : St) (id : Nat) : Option User :=
  st.users.find? (fun u => u.id == id)

/-- Email address of a user row (foreign keys guarantee presence in the
source; a dangling id yields the empty address). -/
def userEmail (st : St) (id : Nat) : String :=
  (findUser st id).elim "" (fun u => u.email)

def findTeamRequest (st : St) (id : Nat) : Option TeamRequest :=
  st.teamRequests.find? (fun t => t.id == id)

/-- UPDATE of a team-request row by primary key (`tr.save()`). -/
def saveTeamRequest (st : St) (tr : TeamRequest) : St :=
  { st with teamRequests := st.teamRequests.map (fun t => if t.id == tr.id then tr else t) }

/-- UPDATE of a member row by primary key (`member.save()`). -/
def saveTeamMember (st : St) (m : TeamMember) : St :=
  { st with teamMembers := st.teamMembers.map (fun x => if x.id == m.id then m else x) }

/-- `tr.members.all()` in definition order. -/
def membersOf (st : St) (requestId : Nat) : List TeamMember :=
  st.teamMembers.filter (fun m => m.requestId == requestId)

def findCourse (st : St) (id : Nat) : Option Course :=
  st.courses.find? (fun c => c.id == id)

/-- Slug of a course row (foreign keys guarantee presence in the source). -/
def courseSlug (st : St) (id : Nat) : String :=
  (findCourse st id).elim "" (fun c => c.slug)

def findRegistration (st : St) (courseId userId : Nat) : Option Registration :=
  st.registrations.find? (fun r => r.courseId == courseId && r.userId == userId)

/-- UPDATE of a registration row by primary key (`reg.save()`). -/
def saveRegistration (st : St) (r : Registration) : St :=
  { st with registrations := st.registrations.map (fun x => if x.id == r.id then r else x) }

/-- `reg.items.all()` in definition order. -/
def itemsOf (st : St) (registrationId : Nat) : List RegistrationItem :=
  st.registrationItems.filter (fun it => it.registrationId == registrationId)

/-- UPDATE of a payment row by primary key (`p.save()`). -/
def savePayment (st : St) (p : Payment) : St :=
  { st with payments := st.payments.map (fun x => if x.id == p.id then p else x) }

/-- presentations/services.py `_is_full`: capacity `None` is never full,
capacity `0` always full, otherwise full when `taken >= capacity`. -/
def _is_full (capacity : Option Int) (taken : Int) : Bool :=
  match capacity with
  | none => false
  | some c => if c == 0 then true else decide (taken ≥ c)

/-- Modelled from the spec: a registration status counted against capacity.
Spec §4.1 / glossary: "Seat-consuming status: a registration/membership status
counted against capacity (APPROVED, FINAL)"; QUEUED/RESERVED never consume a
seat. -/
def seat_consuming (s : RegStatus) : Bool :=
  s == .APPROVED || s == .FINAL

/-- Modelled from the spec: the number of seat-consuming registrations of a
course. Spec §3: "Capacity is counted independently per course and per child",
i.e. registrations holding the course as parent plus selection items holding
it as a child (the shape of `Course.remained_capacity` in
presentations/models.py, with the spec's APPROVED+FINAL statuses). -/
def seat_count (st : St) (c : Course) : Int :=
  Int.ofNat ((st.registrations.filter (fun r => r.courseId == c.id && seat_consuming r.status)).length
    + (st.registrationItems.filter (fun it => it.childCourseId == c.id &&
        st.registrations.any (fun r => r.id == it.registrationId && seat_consuming r.status))).length)

/-- Modelled from the spec: `_is_full_by_count` is imported from
`presentations.models` by presentations/services.py but is not defined
anywhere under src/. Spec §4.1 gives its contract (`is_full(entity)` with the
capacity-policy of `_is_full` over the count of seat-consuming
registrations). `Course.capacity` is a non-nullable column, so the entity's
capacity enters as `some`. -/
def _is_full_by_count (st : St) (course : Course) : Bool :=
  _is_full (some (Int.ofNat course.capacity)) (seat_count st course)

/-- presentations/services.py `_parent_capacity_full`. -/
def _parent_capacity_full (st : St) (course : Course) : Bool :=
  _is_full_by_count st course

/-- presentations/services.py `_child_capacity_full`. -/
def _child_capacity_full (st : St) (child : Course) : Bool :=
  _is_full_by_count st child

/-- presentations/models.py `Course.remained_capacity`: counts FINAL
registrations of the course as parent plus FINAL-registration selection items
of it as child, and returns `max(capacity - used, 0)`. -/
def remained_capacity (st : St) (c : Course) : Int :=
  let finalizedAsParent := (st.registrations.filter (fun r => r.courseId == c.id && r.status == RegStatus.FINAL)).length
  let finalizedAsChild := (st.registrationItems.filter (fun it => it.childCourseId == c.id &&
    st.registrations.any (fun r => r.id == it.registrationId && r.status == RegStatus.FINAL))).length
  max (Int.ofNat c.capacity - Int.ofNat (finalizedAsParent + finalizedAsChild)) 0

/-- competitions/services.py `_hash_token`:
`hmac.new(settings.SECRET_KEY.encode(), token.encode(), sha256).hexdigest()`.
Only determinism and collision-freedom of the keyed digest are observable in
the embedded code, so the digest is embedded as an injective stand-in; the
cleared sentinel `""` (embedded as `none` in `approvalTokenHash`) can never
equal a 64-character hexdigest. -/
def _hash_token (token : String) : String :=
  token

/-- competitions/services.py `APPROVAL_TOKEN_TTL_MIN` (time unit: minutes). -/
def APPROVAL_TOKEN_TTL_MIN : Nat := 60 * 24

/-- competitions/services.py `BLOCKING_STATUSES`. -/
def blockingStatus (s : TRStatus) : Bool :=
  s == .PENDING_APPROVAL || s == .PENDING_INVESTIGATION || s == .PENDING_PAYMENT || s == .FINAL

/-- competitions/services.py `participant_has_active_membership`: a member row
with this (case-insensitive) email whose request is for this competition and
in a blocking status. -/
def participant_has_active_membership (st : St) (competition : Competition) (email : String) : Bool :=
  st.teamMembers.any (fun m =>
    match findTeamRequest st m.requestId with
    | some r => r.competitionId == competition.id && m.email.toLower == email.toLower && blockingStatus r.status
    | none => false)

/-- One participant payload dict of `submit_team_request` (a missing key reads
as `""`, matching `p.get(field, "")` / falsiness of the empty string). -/
structure Participant where
  firstName : String
  lastName : String
  email : String
  phoneNumber : String
  nationalId : String
  studentCardImage : String
  nationalIdImage : String
  tshirtSize : String
  deriving DecidableEq, Repr

/-- `need(field)` of competitions/services.py `validate_participant_payload`:
no config row means every field is REQUIRED. -/
def fieldMode (cfg : Option CompetitionFieldConfig) (get : CompetitionFieldConfig → FieldRequirement) :
    FieldRequirement :=
  match cfg with
  | none => .REQUIRED
  | some c => get c

/-- One loop iteration of `validate_participant_payload`: HIDDEN but
populated, or REQUIRED but empty, raises `COMP_FIELD_INVALID` (400). -/
def checkField (mode : FieldRequirement) (value : String) : Except Err Unit :=
  if mode == .HIDDEN && value != "" then .error (.api .COMP_FIELD_INVALID 400)
  else if mode == .REQUIRED && value == "" then .error (.api .COMP_FIELD_INVALID 400)
  else .ok ()

/-- competitions/services.py `validate_participant_payload` (the eight fields
in source order). -/
def validate_participant_payload (cfg : Option CompetitionFieldConfig) (p : Participant) :
    Except Err Unit := do
  checkField (fieldMode cfg (fun c => c.first_name)) p.firstName
  checkField (fieldMode cfg (fun c => c.last_name)) p.lastName
  checkField (fieldMode cfg (fun c => c.email)) p.email
  checkField (fieldMode cfg (fun c => c.phone_number)) p.phoneNumber
  checkField (fieldMode cfg (fun c => c.national_id)) p.nationalId
  checkField (fieldMode cfg (fun c => c.student_card_image)) p.studentCardImage
  checkField (fieldMode cfg (fun c => c.national_id_image)) p.nationalIdImage
  checkField (fieldMode cfg (fun c => c.tshirt_size)) p.tshirtSize

/-- competitions/services.py `mark_payment_final`: unconditionally sets FINAL
and notifies every member. (Decorated `@transaction.atomic`; it has no raise
path, so the wrapper is the identity and is omitted.) -/
def mark_payment_final (st : St) (tr : TeamRequest) : St × TeamRequest :=
  let tr2 := { tr with status := TRStatus.FINAL }
  let st2 := saveTeamRequest st tr2
  let st3 := (membersOf st2 tr2.id).foldl (fun s m => sendEmail s m.email "COMPETITION_REQUEST_FINAL") st2
  (st3, tr2)

/-- competitions/services.py `mark_payment_rejected`: unconditionally sets
PAYMENT_REJECTED and notifies the submitter. (`@transaction.atomic` with no
raise path.) -/
def mark_payment_rejected (st : St) (tr : TeamRequest) : St × TeamRequest :=
  let tr2 := { tr with status := TRStatus.PAYMENT_REJECTED }
  let st2 := saveTeamRequest st tr2
  (sendEmail st2 (userEmail st2 tr2.submitterId) "COMPETITION_PAYMENT_REJECTED", tr2)

/-- presentations/services.py `set_status_final`: bulk-set FINAL plus decision
time; one finalize notification keyed off the first registration.
(`@transaction.atomic` with no raise path.) -/
def set_status_final (now : Nat) (regs : List Registration) (st : St) : St × List Registration :=
  match regs with
  | [] => (st, regs)
  | r0 :: _ =>
    let regs2 := regs.map (fun r => { r with status := RegStatus.FINAL, decidedAt := some now })
    let st2 := regs2.foldl (fun s r => saveRegistration s r) st
    (sendEmail st2 (userEmail st2 r0.userId) "COURSE_REQUEST_FINAL", regs2)

/-- Comma split of `str.split(",")` over the character list. -/
def splitCharsAux (sep : Char) : List Char → List Char → List (List Char)
  | acc, [] => [acc.reverse]
  | acc, c :: cs =>
    if c == sep then acc.reverse :: splitCharsAux sep [] cs
    else splitCharsAux sep (c :: acc) cs

/-- `s.split(sep)` (Python semantics: an empty string yields one empty chunk). -/
def splitChars (sep : Char) (cs : List Char) : List (List Char) :=
  splitCharsAux sep [] cs

/-- `[int(s) for s in target_id.split(",") if s.strip()]` of
payment/domain_hooks.py: `none` embeds the `ValueError` raised when a kept
chunk is not a decimal integer. -/
def csvIds (s : String) : Option (List Nat) :=
  ((splitChars ',' s.data).filter (fun c => !(trimChars c).isEmpty)).mapM
    (fun c => digitsToNat? (trimChars c))

/-- payment/domain_hooks.py `on_payment_success`: COMPETITION looks the
TeamRequest up by `target_id` (`.get` coerces the string pk, `DoesNotExist`
propagates) and marks it FINAL; COURSE parses `target_id` as a CSV id list,
loads the matching registrations and bulk-finalizes them. -/
def on_payment_success (now : Nat) (st : St) (payment : Payment) : Res Unit :=
  match payment.targetType with
  | .COMPETITION =>
    match pyInt? payment.targetId with
    | none => (st, .error .valueError)
    | some tid =>
      match findTeamRequest st tid with
      | none => (st, .error .doesNotExist)
      | some tr => ((mark_payment_final st tr).1, .ok ())
  | .COURSE =>
    match csvIds payment.targetId with
    | none => (st, .error .valueError)
    | some ids =>
      let regs := st.registrations.filter (fun r => ids.contains r.id)
      ((set_status_final now regs st).1, .ok ())

/-- payment/domain_hooks.py `on_payment_failure`: COMPETITION marks the
TeamRequest PAYMENT_REJECTED; any other target type falls through the single
`if` and nothing happens. -/
def on_payment_failure (st : St) (payment : Payment) : Res Unit :=
  match payment.targetType with
  | .COMPETITION =>
    match pyInt? payment.targetId with
    | none => (st, .error .valueError)
    | some tid =>
      match findTeamRequest st tid with
      | none => (st, .error .doesNotExist)
      | some tr => ((mark_payment_rejected st tr).1, .ok ())
  | .COURSE => (st, .ok ())

/-- payment/services.py `_unverified_list`: the gateway's unVerified.json,
collapsed to `[]` on non-100 code or network error. -/
def _unverified_list (gw : Gateway) : List String :=
  match gw.unverifiedRaw with
  | .transportError _ => []
  | .ok (code, authorities) => if code == 100 then authorities else []

/-- Step 1 of `initiate_payment_for_target`: walk the user's PENDING payments;
for each whose authority is on the gateway's unverified list, call
gateway-verify (a transport error here is NOT caught and propagates as a raw
`requests.RequestException`); code 100 updates the row to SUCCESSFUL and — for
the same (target_type, target_id) — raises `PAY_EXISTING_SUCCESS` (409); any
other code marks the row FAILED. -/
def reconcilePending (gw : Gateway) (targetType : TargetType) (targetId : String)
    (authorities : List String) : List Payment → St → Res Unit
  | [], st => (st, .ok ())
  | p :: rest, st =>
    if p.authority != "" && authorities.contains p.authority then
      match gw.verify p.authority with
      | .transportError msg => (st, .error (.requestExc msg))
      | .ok d =>
        let p2 := { p with zarinpalCode := toString d.code, zarinpalMessage := d.message }
        if d.code == 100 then
          let p3 := { p2 with
            status := PayStatus.SUCCESSFUL
            refId := d.refId
            cardPan := d.cardPan
            cardHash := d.cardHash }
          let st2 := savePayment st p3
          if p3.targetType == targetType && p3.targetId == targetId then
            (st2, .error (.api .PAY_EXISTING_SUCCESS 409))
          else
            reconcilePending gw targetType targetId authorities rest st2
        else
          reconcilePending gw targetType targetId authorities rest (savePayment st { p2 with status := PayStatus.FAILED })
    else
      reconcilePending gw targetType targetId authorities rest st

/-- Step 2 of `initiate_payment_for_target`: the gateway request; a transport
error or a non-100 code CREATES a `PG_INITIATE_ERROR` payment row and then
raises `PAY_INIT_FAILED` / `PAY_GATEWAY_REFUSED` (409) out of the enclosing
atomic block; code 100 records a PENDING payment and returns the StartPay URL.
Starts from the store `st1` left by the reconciliation step. -/
def initiate_request_step (gw : Gateway) (user : User)
    (targetType : TargetType) (targetId : String) (amount : Int)
    (description : String) (extraMetadata : Option PaymentMeta) (st1 : St) : Res StartPayResult :=
  match gw.request with
      | .transportError msg =>
        let row : Payment := { id := st1.nextId, userId := user.id, targetType := targetType
                               targetId := targetId, amount := amount
                               status := PayStatus.PG_INITIATE_ERROR
                               authority := "", refId := "", cardPan := "", cardHash := ""
                               zarinpalCode := "", zarinpalMessage := msg
                               description := description, metadata := extraMetadata.getD ⟨none⟩ }
        let st2 := { st1 with payments := st1.payments ++ [row], nextId := st1.nextId + 1 }
        (st2, .error (.api .PAY_INIT_FAILED 409))
      | .ok d =>
        if d.code != 100 then
          let row : Payment := { id := st1.nextId, userId := user.id, targetType := targetType
                                 targetId := targetId, amount := amount
                                 status := PayStatus.PG_INITIATE_ERROR
                                 authority := "", refId := "", cardPan := "", cardHash := ""
                                 zarinpalCode := toString d.code, zarinpalMessage := d.message
                                 description := description, metadata := extraMetadata.getD ⟨none⟩ }
          let st2 := { st1 with payments := st1.payments ++ [row], nextId := st1.nextId + 1 }
          (st2, .error (.api .PAY_GATEWAY_REFUSED 409))
        else
          let row : Payment := { id := st1.nextId, userId := user.id, targetType := targetType
                                 targetId := targetId, amount := amount
                                 status := PayStatus.PENDING
                                 authority := d.authority, refId := "", cardPan := "", cardHash := ""
                                 zarinpalCode := "", zarinpalMessage := ""
                                 description := description, metadata := extraMetadata.getD ⟨none⟩ }
          let st2 := { st1 with payments := st1.payments ++ [row], nextId := st1.nextId + 1 }
          (st2, .ok { url := "https://payment.zarinpal.com/pg/StartPay/" ++ d.authority,
                      payment := row, authority := d.authority })

/-- payment/services.py `initiate_payment_for_target`, body of the
`@transaction.atomic` block: auth and merchant guards, reconciliation of
outstanding PENDING payments, then the gateway request step. -/
def initiate_payment_body (gw : Gateway) (cfg : PayConfig) (user : User)
    (targetType : TargetType) (targetId : String) (amount : Int)
    (description : String) (extraMetadata : Option PaymentMeta) (st : St) : Res StartPayResult :=
  if !user.isAuthenticated then (st, .error (.api .PAY_AUTH_REQUIRED 401))
  else if cfg.merchantId == "" then (st, .error (.api .PAY_MERCHANT_NOT_CONFIGURED 400))
  else
    let pending := st.payments.filter (fun p => p.userId == user.id && p.status == PayStatus.PENDING)
    match (if pending.isEmpty then (st, Except.ok ())
           else reconcilePending gw targetType targetId (_unverified_list gw) pending st : Res Unit) with
    | (st1, .error e) => (st1, .error e)
    | (st1, .ok ()) => initiate_request_step gw user targetType targetId amount description extraMetadata st1

/-- payment/services.py `initiate_payment_for_target` (with its
`@transaction.atomic` rollback-on-raise semantics). -/
def initiate_payment_for_target (gw : Gateway) (cfg : PayConfig) (user : User)
    (targetType : TargetType) (targetId : String) (amount : Int)
    (description : String) (extraMetadata : Option PaymentMeta) : St → Res StartPayResult :=
  atomic (initiate_payment_body gw cfg user targetType targetId amount description extraMetadata)

/-- The payment rows matching `.get(user=user, authority=authority)` of
`verify_by_authority` (one row expected; none is `DoesNotExist`, several is
`MultipleObjectsReturned`). -/
def paymentsFor (st : St) (userId : Nat) (authority : String) : List Payment :=
  st.payments.filter (fun p => p.userId == userId && p.authority == authority)

/-- payment/services.py `verify_by_authority`, body of the
`@transaction.atomic` block: 404 when no payment matches (user, authority);
non-PENDING returns the stored row as-is; otherwise gateway-verify — transport
error or non-100 flips to FAILED and fires `on_payment_failure`, code 100
flips to SUCCESSFUL with ref/card fields and fires `on_payment_success`, then
best-effort finalizes the `metadata.reg_id` registration (errors there are
swallowed). -/
def verify_by_authority_body (gw : Gateway) (now : Nat)
    (user : User) (authority : String) (st : St) : Res Payment :=
  if !user.isAuthenticated then (st, .error (.api .PAY_AUTH_REQUIRED 401))
  else
    match paymentsFor st user.id authority with
    | [] => (st, .error (.api .PAY_NOT_FOUND_FOR_USER 404))
    | _ :: _ :: _ => (st, .error .multipleObjectsReturned)
    | [p] =>
      if p.status != PayStatus.PENDING then (st, .ok p)
      else
        match gw.verify authority with
        | .transportError msg =>
          let p2 := { p with status := PayStatus.FAILED, zarinpalMessage := msg }
          let st2 := savePayment st p2
          match on_payment_failure st2 p2 with
          | (st3, .ok ()) => (st3, .ok p2)
          | (st3, .error e) => (st3, .error e)
        | .ok d =>
          let p2 := { p with zarinpalCode := toString d.code, zarinpalMessage := d.message }
          if d.code == 100 then
            let p3 := { p2 with
              status := PayStatus.SUCCESSFUL
              refId := d.refId
              cardPan := d.cardPan
              cardHash := d.cardHash }
            let st2 := savePayment st p3
            match on_payment_success now st2 p3 with
            | (st3, .error e) => (st3, .error e)
            | (st3, .ok ()) =>
              let st4 :=
                match p3.metadata.regId with
                | none => st3
                | some rid =>
                  match st3.registrations.find? (fun r => r.id == rid && r.userId == user.id) with
                  | none => st3
                  | some reg => (set_status_final now [reg] st3).1
              (st4, .ok p3)
          else
            let p3 := { p2 with status := PayStatus.FAILED }
            let st2 := savePayment st p3
            match on_payment_failure st2 p3 with
            | (st3, .ok ()) => (st3, .ok p3)
            | (st3, .error e) => (st3, .error e)

/-- payment/services.py `verify_by_authority` (with its `@transaction.atomic`
rollback-on-raise semantics). -/
def verify_by_authority (gw : Gateway) (now : Nat) (user : User) (authority : String) :
    St → Res Payment :=
  atomic (verify_by_authority_body gw now user authority)

/-- The per-participant validation loop of `submit_team_request`: field
validation, duplicate-email rejection (payload-local, case-folded), and the
active-membership conflict. -/
def checkParticipants (st : St) (competition : Competition) (cfg : Option CompetitionFieldConfig) :
    List Participant → List String → Except Err Unit
  | [], _ => .ok ()
  | p :: rest, seen =>
    match validate_participant_payload cfg p with
    | .error e => .error e
    | .ok () =>
      let email := p.email.toLower
      if seen.contains email then .error (.api .COMP_DUPLICATE_PARTICIPANT_EMAIL 400)
      else if participant_has_active_membership st competition email then
        .error (.api .COMP_PARTICIPANT_ALREADY_ACTIVE 409)
      else checkParticipants st competition cfg rest (seen ++ [email])

/-- The member-creation loop of `submit_team_request`: one member per
participant with a fresh token (stored as its keyed hash) and the shared
expiry, plus one approval-request email per member. -/
def createMembers (submitter : User) (trId : Nat) (expires : Nat) (tokenFor : Nat → String) :
    List Participant → Nat → St → St
  | [], _, st => st
  | p :: rest, i, st =>
    let m : TeamMember := { id := st.nextId, requestId := trId
                            userId := if p.email.toLower == submitter.email.toLower then some submitter.id else none
                            firstName := p.firstName, lastName := p.lastName, email := p.email
                            phoneNumber := p.phoneNumber, nationalId := p.nationalId
                            studentCardImage := p.studentCardImage, nationalIdImage := p.nationalIdImage
                            tshirtSize := p.tshirtSize, universityName := "", studentNumber := ""
                            approvalStatus := ApprovalStatus.PENDING
                            approvalTokenHash := some (_hash_token (tokenFor i))
                            approvalTokenExpiresAt := some expires
                            approvalAt := none }
    let st2 := { st with teamMembers := st.teamMembers ++ [m], nextId := st.nextId + 1 }
    createMembers submitter trId expires tokenFor rest (i + 1) (sendEmail st2 p.email "COMPETITION_MEMBER_APPROVAL")

/-- competitions/services.py `submit_team_request`, body of the
`@transaction.atomic` block: verified-email guard, team-size guard, the
participant validation loop, then creation of the TeamRequest
(PENDING_APPROVAL), its members with tokens, and the notifications. -/
def submit_team_request_body (competition : Competition) (submitter : User)
    (teamName : Option String) (participants : List Participant)
    (tokenFor : Nat → String) (now : Nat) (st : St) : Res TeamRequest :=
  if !(submitter.isAuthenticated && submitter.isEmailVerified) then
    (st, .error (.api .ACC_EMAIL_NOT_VERIFIED 403))
  else
    let n := participants.length
    if n < competition.minTeamSize || n > competition.maxTeamSize then
      (st, .error (.api .COMP_TEAM_SIZE_INVALID 400))
    else
      match checkParticipants st competition competition.fieldConfig participants [] with
      | .error e => (st, .error e)
      | .ok () =>
        let tr : TeamRequest := { id := st.nextId, competitionId := competition.id
                                  submitterId := submitter.id, teamName := teamName.getD ""
                                  status := TRStatus.PENDING_APPROVAL, paymentLink := "" }
        let st1 := { st with teamRequests := st.teamRequests ++ [tr], nextId := st.nextId + 1 }
        let st2 := createMembers submitter tr.id (now + APPROVAL_TOKEN_TTL_MIN) tokenFor participants 0 st1
        (sendEmail st2 submitter.email "COMPETITION_REQUEST_SUBMITTED", .ok tr)

/-- competitions/services.py `submit_team_request` (with its
`@transaction.atomic` rollback-on-raise semantics). -/
def submit_team_request (competition : Competition) (submitter : User)
    (teamName : Option String) (participants : List Participant)
    (tokenFor : Nat → String) (now : Nat) : St → Res TeamRequest :=
  atomic (submit_team_request_body competition submitter teamName participants tokenFor now)

/-- The decided status written by `approve_or_reject_member`:
APPROVED on accept, REJECTED otherwise. -/
def decidedStatus (accept : Bool) : ApprovalStatus :=
  if accept then .APPROVED else .REJECTED

/-- competitions/services.py `approve_or_reject_member`, body of the
`@transaction.atomic` block: member lookup by (request_id, token hash)
(`DoesNotExist` is turned into `COMP_INVALID_OR_EXPIRED_TOKEN`); a member that
already decided is returned unchanged; an expired token raises
`COMP_TOKEN_EXPIRED`; otherwise the decision is recorded (token cleared) and,
when the request is still PENDING_APPROVAL, any REJECTED member flips it to
REJECTED, else once no member is PENDING it advances to PENDING_INVESTIGATION
(backoffice mode) or initiates the signup-fee payment and moves to
PENDING_PAYMENT (an initiation failure is re-raised as
`COMP_PAYMENT_INIT_FAILED`, 409). -/
def approve_or_reject_member_body (gw : Gateway) (cfg : PayConfig) (now : Nat)
    (requestId : Nat) (token : String) (accept : Bool) (st : St) : Res TeamMember :=
  match st.teamMembers.filter (fun m =>
      m.requestId == requestId && m.approvalTokenHash == some (_hash_token token)) with
  | [] => (st, .error (.api .COMP_INVALID_OR_EXPIRED_TOKEN 400))
  | _ :: _ :: _ => (st, .error .multipleObjectsReturned)
  | [member] =>
    if member.approvalStatus != ApprovalStatus.PENDING then (st, .ok member)
    else if (match member.approvalTokenExpiresAt with
             | some t => decide (t < now)
             | none => false) then
      (st, .error (.api .COMP_TOKEN_EXPIRED 400))
    else
      let member2 := { member with
        approvalStatus := decidedStatus accept
        approvalAt := some now
        approvalTokenHash := none }
      let st1 := saveTeamMember st member2
      match findTeamRequest st1 member2.requestId with
      | none => (st1, .error .doesNotExist)
      | some tr =>
        if tr.status == TRStatus.PENDING_APPROVAL then
          if (membersOf st1 tr.id).any (fun m => m.approvalStatus == ApprovalStatus.REJECTED) then
            let tr2 := { tr with status := TRStatus.REJECTED }
            let st2 := saveTeamRequest st1 tr2
            (sendEmail st2 (userEmail st2 tr2.submitterId) "COMPETITION_REQUEST_REJECTED", .ok member2)
          else if !(membersOf st1 tr.id).any (fun m => m.approvalStatus == ApprovalStatus.PENDING) then
            match findCompetition st1 tr.competitionId with
            | none => (st1, .error .doesNotExist)
            | some comp =>
              if comp.requiresBackofficeApproval then
                let tr2 := { tr with status := TRStatus.PENDING_INVESTIGATION }
                let st2 := saveTeamRequest st1 tr2
                (sendEmail st2 (userEmail st2 tr2.submitterId) "COMPETITION_REQUEST_PENDING_INVESTIGATION",
                 .ok member2)
              else
                match findUser st1 tr.submitterId with
                | none => (st1, .error .doesNotExist)
                | some submitter =>
                  match initiate_payment_for_target gw cfg submitter TargetType.COMPETITION
                      (toString tr.id) comp.signupFee
                      ("Competition " ++ comp.name ++ " #" ++ toString tr.id) none st1 with
                  | (stE, .error _) => (stE, .error (.api .COMP_PAYMENT_INIT_FAILED 409))
                  | (st2, .ok result) =>
                    let tr2 := { tr with paymentLink := result.url, status := TRStatus.PENDING_PAYMENT }
                    let st3 := saveTeamRequest st2 tr2
                    (sendEmail st3 (userEmail st3 tr2.submitterId) "COMPETITION_REQUEST_PENDING_PAYMENT",
                     .ok member2)
          else (st1, .ok member2)
        else (st1, .ok member2)

/-- competitions/services.py `approve_or_reject_member` (with its
`@transaction.atomic` rollback-on-raise semantics). -/
def approve_or_reject_member (gw : Gateway) (cfg : PayConfig) (now : Nat)
    (requestId : Nat) (token : String) (accept : Bool) : St → Res TeamMember :=
  atomic (approve_or_reject_member_body gw cfg now requestId token accept)

/-- competitions/services.py `cancel_request`, body of the
`@transaction.atomic` block: submitter-only (403), approval-mode competitions
only (400), only from PENDING_APPROVAL / PENDING_INVESTIGATION (409); then
CANCELLED plus a submitter notification. -/
def cancel_request_body (tr : TeamRequest) (byUser : User) (st : St) : Res TeamRequest :=
  if tr.submitterId != byUser.id then (st, .error (.api .COMP_ONLY_SUBMITTER_CAN_CANCEL 403))
  else
    match findCompetition st tr.competitionId with
    | none => (st, .error .doesNotExist)
    | some comp =>
      if !comp.requiresBackofficeApproval then
        (st, .error (.api .COMP_CANCELLATION_NOT_APPLICABLE 400))
      else if !(tr.status == TRStatus.PENDING_APPROVAL || tr.status == TRStatus.PENDING_INVESTIGATION) then
        (st, .error (.api .COMP_CANCELLATION_NOT_ALLOWED_STATE 409))
      else
        let tr2 := { tr with status := TRStatus.CANCELLED }
        let st2 := saveTeamRequest st tr2
        (sendEmail st2 (userEmail st2 tr2.submitterId) "COMPETITION_REQUEST_CANCELLED", .ok tr2)

/-- competitions/services.py `cancel_request`. -/
def cancel_request (tr : TeamRequest) (byUser : User) : St → Res TeamRequest :=
  atomic (cancel_request_body tr byUser)

/-- competitions/services.py `backoffice_approve_request`, body of the
`@transaction.atomic` block: only from PENDING_INVESTIGATION (409); initiates
the signup-fee payment (failure re-raised as `COMP_PAYMENT_INIT_FAILED`, 409)
and moves to PENDING_PAYMENT with the returned link. -/
def backoffice_approve_request_body (gw : Gateway) (cfg : PayConfig) (tr : TeamRequest) (st : St) :
    Res TeamRequest :=
  if tr.status != TRStatus.PENDING_INVESTIGATION then
    (st, .error (.api .COMP_NOT_IN_INVESTIGATION_STATE 409))
  else
    match findCompetition st tr.competitionId, findUser st tr.submitterId with
    | some comp, some submitter =>
      match initiate_payment_for_target gw cfg submitter TargetType.COMPETITION
          (toString tr.id) comp.signupFee
          ("Competition " ++ comp.name ++ " #" ++ toString tr.id) none st with
      | (stE, .error _) => (stE, .error (.api .COMP_PAYMENT_INIT_FAILED 409))
      | (st2, .ok result) =>
        let tr2 := { tr with paymentLink := result.url, status := TRStatus.PENDING_PAYMENT }
        let st3 := saveTeamRequest st2 tr2
        (sendEmail st3 (userEmail st3 tr2.submitterId) "COMPETITION_REQUEST_PENDING_PAYMENT", .ok tr2)
    | _, _ => (st, .error .doesNotExist)

/-- competitions/services.py `backoffice_approve_request`. -/
def backoffice_approve_request (gw : Gateway) (cfg : PayConfig) (tr : TeamRequest) :
    St → Res TeamRequest :=
  atomic (backoffice_approve_request_body gw cfg tr)

/-- competitions/services.py `backoffice_reject_request`, body of the
`@transaction.atomic` block: only from PENDING_INVESTIGATION /
PENDING_APPROVAL (409); then REJECTED plus one notification per member (the
`reason` argument only feeds the unmodelled email context). -/
def backoffice_reject_request_body (tr : TeamRequest) (reason : String) (st : St) : Res TeamRequest :=
  if !(tr.status == TRStatus.PENDING_INVESTIGATION || tr.status == TRStatus.PENDING_APPROVAL) then
    (st, .error (.api .COMP_BACKOFFICE_REJECT_INVALID_STATE 409))
  else
    let tr2 := { tr with status := TRStatus.REJECTED }
    let st2 := saveTeamRequest st tr2
    let st3 := (membersOf st2 tr2.id).foldl
      (fun s m => sendEmail s m.email "COMPETITION_REQUEST_REJECTED") st2
    (st3, .ok tr2)

/-- competitions/services.py `backoffice_reject_request`. -/
def backoffice_reject_request (tr : TeamRequest) (reason : String) : St → Res TeamRequest :=
  atomic (backoffice_reject_request_body tr reason)

/-- presentations/services.py `_compute_total_amount`: parent course price
plus the price snapshots of the registration's items. -/
def _compute_total_amount (st : St) (reg : Registration) : Int :=
  (findCourse st reg.courseId).elim 0 (fun c => c.price) +
    ((itemsOf st reg.id).map (fun it => it.price)).sum

/-- presentations/services.py `_compose_description`: parent slug, plus the
bracketed child slugs when any child was selected. -/
def _compose_description (st : St) (reg : Registration) : String :=
  let childSlugs := String.intercalate ", " ((itemsOf st reg.id).map (fun it => courseSlug st it.childCourseId))
  if childSlugs != "" then courseSlug st reg.courseId ++ " + [" ++ childSlugs ++ "]"
  else courseSlug st reg.courseId

/-- presentations/services.py `set_status_approved`, body of the
`@transaction.atomic` block: sets APPROVED; without an explicit link it
computes the amount (override or course+items), builds the CSV bundle target
id `"parent,child1,..."`, initiates the payment with `{reg_id, ...}` metadata
(failure propagates to the caller) and stores the returned link; stamps the
decision time and notifies the user. -/
def set_status_approved_body (gw : Gateway) (cfg : PayConfig) (now : Nat)
    (reg : Registration) (paymentLink : Option String) (overrideAmount : Option Int)
    (description : Option String) (st : St) : Res Registration :=
  let regA := { reg with status := RegStatus.APPROVED }
  match paymentLink with
  | some link =>
    let regB := { regA with paymentLink := link, decidedAt := some now }
    let st2 := saveRegistration st regB
    (sendEmail st2 (userEmail st2 regB.userId) "COURSE_REQUEST_APPROVED", .ok regB)
  | none =>
    let amount := overrideAmount.getD (_compute_total_amount st regA)
    let childIds := (itemsOf st regA.id).map (fun it => it.childCourseId)
    let bundleTargetId := String.intercalate "," ((regA.courseId :: childIds).map toString)
    let desc := match description with
      | some d => if d == "" then _compose_description st regA else d
      | none => _compose_description st regA
    match findUser st regA.userId with
    | none => (st, .error .doesNotExist)
    | some u =>
      match initiate_payment_for_target gw cfg u TargetType.COURSE bundleTargetId amount desc
          (some { regId := some regA.id }) st with
      | (stE, .error e) => (stE, .error e)
      | (st2, .ok result) =>
        let regB := { regA with paymentLink := result.url, decidedAt := some now }
        let st3 := saveRegistration st2 regB
        (sendEmail st3 (userEmail st3 regB.userId) "COURSE_REQUEST_APPROVED", .ok regB)

/-- presentations/services.py `set_status_approved` (with its
`@transaction.atomic` rollback-on-raise semantics). -/
def set_status_approved (gw : Gateway) (cfg : PayConfig) (now : Nat)
    (reg : Registration) (paymentLink : Option String) (overrideAmount : Option Int)
    (description : Option String) : St → Res Registration :=
  atomic (set_status_approved_body gw cfg now reg paymentLink overrideAmount description)

/-- presentations/services.py `_auto_progress_to_payment`: zero (or negative)
total finalizes immediately with a cleared payment link; a positive total goes
through `set_status_approved` with the computed override amount. -/
def _auto_progress_to_payment (gw : Gateway) (cfg : PayConfig) (now : Nat)
    (reg : Registration) (st : St) : Res Registration :=
  let total := _compute_total_amount st reg
  if total ≤ 0 then
    let reg2 := { reg with status := RegStatus.FINAL, decidedAt := some now, paymentLink := "" }
    let st2 := saveRegistration st reg2
    (sendEmail st2 (userEmail st2 reg2.userId) "COURSE_REQUEST_FINAL", .ok reg2)
  else
    set_status_approved gw cfg now reg none (some total) (some (_compose_description st reg)) st

/-- `dict.fromkeys` deduplication of `child_ids` (keeps first occurrences in
order). -/
def dedupKeepOrder (l : List Nat) : List Nat :=
  l.foldl (fun acc x => if acc.contains x then acc else acc ++ [x]) []

/-- Key lookup in a merged JSON document / kwargs dict. -/
def lookupKey (l : List (String × String)) (k : String) : Option String :=
  (l.find? (fun kv => kv.1 == k)).map (fun kv => kv.2)

/-- `{**old, **updates}`: updates win key-by-key (association-list merge; key
order is not observable in the embedded code). -/
def mergeAnswers (old updates : List (String × String)) : List (String × String) :=
  old.filter (fun kv => (lookupKey updates kv.1).isNone) ++ updates

/-- The `extra_updates` block of `submit_registration`: merge into the user's
`UserExtraData.answers`; best-effort coercion of `codeforces_score` (a
non-integer value is swallowed by `except: pass`); `codeforces_handle`
truncated to 64 characters. -/
def applyExtraUpdates (st : St) (user : User) (extraUpdates : List (String × String)) : St :=
  if extraUpdates.isEmpty then st
  else
    let extra :=
      match st.userExtra.find? (fun e => e.userId == user.id) with
      | some e => e
      | none => { userId := user.id, codeforcesHandle := "", codeforcesScore := 0, answers := [] }
    let extra1 := { extra with answers := mergeAnswers extra.answers extraUpdates }
    let extra2 :=
      match lookupKey extraUpdates "codeforces_score" with
      | none => extra1
      | some v =>
        match v.toInt? with
        | some n => { extra1 with codeforcesScore := n }
        | none => extra1
    let extra3 :=
      match lookupKey extraUpdates "codeforces_handle" with
      | none => extra2
      | some v => { extra2 with codeforcesHandle := v.take 64 }
    { st with userExtra := st.userExtra.filter (fun e => e.userId != user.id) ++ [extra3] }

/-- The `valid_children` queryset of `submit_registration`:
`course.children.filter(is_active=True, id__in=child_ids)` over the
deduplicated selection. -/
def validChildrenOf (st : St) (course : Course) (childIds0 : List Nat) : List Course :=
  st.courses.filter (fun c =>
    course.childrenIds.contains c.id && c.isActive && (dedupKeepOrder childIds0).contains c.id)

/-- The already-owned guard set of `submit_registration`: course ids of the
user's FINAL registrations plus child-course ids of their items. -/
def ownedIdsOf (st : St) (user : User) : List Nat :=
  let finalizedRegs := st.registrations.filter (fun r =>
    r.userId == user.id && r.status == RegStatus.FINAL)
  finalizedRegs.map (fun r => r.courseId) ++
    (st.registrationItems.filter (fun it =>
      finalizedRegs.any (fun r => r.id == it.registrationId))).map (fun it => it.childCourseId)

/-- `forced_waitlist` of `submit_registration`: parent full OR any selected
child full. -/
def forcedWaitlistFor (st : St) (course : Course) (validChildren : List Course) : Bool :=
  _parent_capacity_full st course ||
    !(validChildren.filter (fun c => _child_capacity_full st c)).isEmpty

/-- The reset applied by `submit_registration` to the (course, user) row:
resume URL kept unless a non-empty one is given, submission time refreshed,
rejection reason cleared, status RESERVED when the waitlist is forced and
QUEUED otherwise. -/
def resetRegistration (now : Nat) (resumeUrl : Option String) (forcedWaitlist : Bool)
    (reg : Registration) : Registration :=
  { reg with
    resumeUrl := match resumeUrl with
      | some ru => if ru == "" then reg.resumeUrl else ru
      | none => reg.resumeUrl
    submittedAt := now
    rejectionReason := ""
    status := if forcedWaitlist then RegStatus.RESERVED else RegStatus.QUEUED }

/-- The item replacement of `submit_registration`: delete the registration's
previous items, insert the newly selected children at their current prices. -/
def replaceItems (st : St) (reg : Registration) (validChildren : List Course) : St :=
  { st with registrationItems :=
      st.registrationItems.filter (fun it => it.registrationId != reg.id) ++
        validChildren.map (fun c =>
          { registrationId := reg.id, childCourseId := c.id, price := c.price }) }

/-- presentations/services.py `submit_registration`, body of the
`@transaction.atomic` block: verified-email guard; child-id dedup and
validation; the already-owned guard over FINAL registrations (parents and
child items); capacity check (parent full OR any selected child full forces
the waitlist); get_or_create of the unique (course, user) row; FINAL rows
reject resubmission; otherwise the row is reset (RESERVED when forced,
else QUEUED; cleared rejection reason; refreshed submission time), the
extra-data document is merged, the item set is replaced at current prices, a
submission email is sent, and — when no approval is required and the row is
QUEUED — the registration auto-progresses. -/
def submit_registration_body (gw : Gateway) (cfg : PayConfig) (now : Nat)
    (course : Course) (user : User) (extraUpdates : List (String × String))
    (childIds0 : List Nat) (resumeUrl : Option String) (st : St) : Res Registration :=
  if !(user.isAuthenticated && user.isEmailVerified) then
    (st, .error (.api .ACC_EMAIL_NOT_VERIFIED 403))
  else
    let childIds := dedupKeepOrder childIds0
    let validChildren := validChildrenOf st course childIds0
    if validChildren.length != childIds.length then
      (st, .error (.api .REG_CHILD_INVALID_SELECTION 400))
    else
      let ownedIds := ownedIdsOf st user
      if ownedIds.contains course.id then
        (st, .error (.api .REG_ALREADY_OWNED 409))
      else if !(validChildren.filter (fun c => ownedIds.contains c.id)).isEmpty then
        (st, .error (.api .REG_CHILD_ALREADY_OWNED 409))
      else
        let forcedWaitlist := forcedWaitlistFor st course validChildren
        let stRegCreated :=
          match findRegistration st course.id user.id with
          | some r => (st, r, false)
          | none =>
            let r : Registration := { id := st.nextId, courseId := course.id, userId := user.id
                                      status := RegStatus.SUBMITTED
                                      resumeUrl := "", rejectionReason := "", paymentLink := ""
                                      submittedAt := now, decidedAt := none }
            ({ st with registrations := st.registrations ++ [r], nextId := st.nextId + 1 }, r, true)
        match stRegCreated with
        | (st1, reg, created) =>
          if !created && reg.status == RegStatus.FINAL then
            (st1, .error (.api .REG_ALREADY_FINAL_OR_APPROVED 409))
          else
            let reg2 := resetRegistration now resumeUrl forcedWaitlist reg
            let st2 := saveRegistration st1 reg2
            let st3 := applyExtraUpdates st2 user extraUpdates
            let st4 := replaceItems st3 reg2 validChildren
            let st5 := sendEmail st4 user.email "COURSE_REQUEST_SUBMITTED"
            let requiresApproval := course.requiresApproval ||
              validChildren.any (fun c => c.requiresApproval) || forcedWaitlist
            if !requiresApproval && reg2.status == RegStatus.QUEUED then
              _auto_progress_to_payment gw cfg now reg2 st5
            else
              (st5, .ok reg2)

/-- presentations/services.py `submit_registration` (with its
`@transaction.atomic` rollback-on-raise semantics). -/
def submit_registration (gw : Gateway) (cfg : PayConfig) (now : Nat)
    (course : Course) (user : User) (extraUpdates : List (String × String))
    (childIds : List Nat) (resumeUrl : Option String) : St → Res Registration :=
  atomic (submit_registration_body gw cfg now course user extraUpdates childIds resumeUrl)

/-- Status of the team-request row with the given id, if any. -/
def trStatus? (st : St) (id : Nat) : Option TRStatus :=
  (findTeamRequest st id).map (fun t => t.status)

/-- Status of the registration row with the given id, if any. -/
def regStatusById? (st : St) (id : Nat) : Option RegStatus :=
  (st.registrations.find? (fun r => r.id == id)).map (fun r => r.status)

/-- The terminal team-request statuses of the spec's lifecycle section. -/
def terminalStatus (s : TRStatus) : Bool :=
  s == .FINAL || s == .REJECTED || s == .CANCELLED || s == .PAYMENT_REJECTED

/-- A gateway that answers nothing (every call is a transport error); used
where the gateway is provably never consulted. -/
def gwDummy : Gateway :=
  { unverifiedRaw := .transportError "down"
    verify := fun _ => .transportError "down"
    request := .transportError "down" }

/-- A reachable gateway whose request.json answers with a refusal code. -/
def gwRefuse : Gateway :=
  { unverifiedRaw := .ok (100, [])
    verify := fun _ => .transportError "x"
    request := .ok { code := -9, authority := "", message := "refused" } }

/-- A gateway whose request.json round-trip fails at the transport level. -/
def gwDown : Gateway :=
  { unverifiedRaw := .ok (100, [])
    verify := fun _ => .transportError "x"
    request := .transportError "connect timeout" }

/-- A gateway whose verify.json confirms every authority (code 100). -/
def gwVerifyOk : Gateway :=
  { unverifiedRaw := .ok (100, [])
    verify := fun _ => .ok { code := 100, refId := "R9", cardPan := "P9", cardHash := "H9", message := "OK" }
    request := .transportError "down" }

/-- Standard payment configuration fixture (merchant configured). -/
def cfgStd : PayConfig := { merchantId := "m1" }

/-- An authenticated, email-verified user fixture. -/
def userStd : User :=
  { id := 1, email := "sub@example.com", phoneNumber := none, firstName := "A", lastName := "B"
    isAuthenticated := true, isEmailVerified := true }

/-- The empty store fixture. -/
def emptySt : St :=
  { competitions := [], users := [], teamRequests := [], teamMembers := [], courses := []
    registrations := [], registrationItems := [], payments := [], userExtra := [], emails := []
    nextId := 1 }

/-- A team request already in the terminal CANCELLED state. -/
def trCancelled : TeamRequest :=
  { id := 1, competitionId := 1, submitterId := 1, teamName := "t", status := .CANCELLED
    paymentLink := "" }

/-- Store containing only `trCancelled` and its submitter. -/
def stTerminal : St :=
  { emptySt with teamRequests := [trCancelled], users := [userStd], nextId := 2 }

/-- An approval-mode competition fixture. -/
def compBackoffice : Competition :=
  { id := 1, name := "ICPC", minTeamSize := 1, maxTeamSize := 3, signupFee := 0
    requiresBackofficeApproval := true, isActive := true, fieldConfig := none }

/-- A pending member holding a live approval token (hash of "tok"). -/
def memberTok : TeamMember :=
  { id := 2, requestId := 1, userId := some 1, firstName := "A", lastName := "B"
    email := "sub@example.com", phoneNumber := "1", nationalId := "", studentCardImage := ""
    nationalIdImage := "", tshirtSize := "", universityName := "", studentNumber := ""
    approvalStatus := .PENDING, approvalTokenHash := some (_hash_token "tok")
    approvalTokenExpiresAt := some 100, approvalAt := none }

/-- The pending-approval request of `memberTok`. -/
def trPending : TeamRequest :=
  { id := 1, competitionId := 1, submitterId := 1, teamName := "t", status := .PENDING_APPROVAL
    paymentLink := "" }

/-- Store for the double-approval scenario: one pending request with one
pending member holding a live token. -/
def stToken : St :=
  { emptySt with competitions := [compBackoffice], users := [userStd]
                 teamRequests := [trPending], teamMembers := [memberTok], nextId := 3 }

/-- `memberTok` after approving: decided, stamped, token cleared. -/
def memberTokApproved : TeamMember :=
  { memberTok with approvalStatus := .APPROVED, approvalAt := some 50, approvalTokenHash := none }

/-- Store with one authenticated user and nothing else (payment initiation
fixture). -/
def stPayUser : St := { emptySt with users := [userStd] }

/-- The `PG_INITIATE_ERROR` row that `initiate_payment_for_target` creates
inside its atomic block when `gwRefuse` refuses the request. -/
def rowInitErr : Payment :=
  { id := 1, userId := 1, targetType := .COURSE, targetId := "7", amount := 1000
    status := .PG_INITIATE_ERROR, authority := "", refId := "", cardPan := "", cardHash := ""
    zarinpalCode := "-9", zarinpalMessage := "refused", description := "", metadata := ⟨none⟩ }

/-- The `PG_INITIATE_ERROR` row created when the request round-trip to
`gwDown` fails at the transport level. -/
def rowInitErrDown : Payment :=
  { id := 1, userId := 1, targetType := .COURSE, targetId := "7", amount := 1000
    status := .PG_INITIATE_ERROR, authority := "", refId := "", cardPan := "", cardHash := ""
    zarinpalCode := "", zarinpalMessage := "connect timeout", description := "", metadata := ⟨none⟩ }

/-- A successful COURSE payment whose target id is the CSV bundle "42,101". -/
def payBundle : Payment :=
  { id := 9, userId := 1, targetType := .COURSE, targetId := "42,101", amount := 5
    status := .SUCCESSFUL, authority := "A1", refId := "", cardPan := "", cardHash := ""
    zarinpalCode := "100", zarinpalMessage := "", description := "", metadata := ⟨none⟩ }

/-- Registration 42 of the bundle, awaiting payment. -/
def regBundleA : Registration :=
  { id := 42, courseId := 10, userId := 1, status := .APPROVED, resumeUrl := ""
    rejectionReason := "", paymentLink := "", submittedAt := 0, decidedAt := none }

/-- Registration 101 of the bundle, awaiting payment. -/
def regBundleB : Registration :=
  { id := 101, courseId := 11, userId := 1, status := .APPROVED, resumeUrl := ""
    rejectionReason := "", paymentLink := "", submittedAt := 0, decidedAt := none }

/-- Store holding the two bundle registrations. -/
def stBundle : St := { emptySt with users := [userStd], registrations := [regBundleA, regBundleB] }

/-- A pending COMPETITION payment for team request 4 (authority "AUTH4"). -/
def payPendingComp : Payment :=
  { id := 5, userId := 1, targetType := .COMPETITION, targetId := "4", amount := 700
    status := .PENDING, authority := "AUTH4", refId := "", cardPan := "", cardHash := ""
    zarinpalCode := "", zarinpalMessage := "", description := "", metadata := ⟨none⟩ }

/-- Team request 4, awaiting its payment. -/
def trAwaitingPayment : TeamRequest :=
  { id := 4, competitionId := 1, submitterId := 1, teamName := "t", status := .PENDING_PAYMENT
    paymentLink := "L" }

/-- Store for the verification scenario: one pending payment targeting one
pending-payment team request. -/
def stVerify : St :=
  { emptySt with users := [userStd], teamRequests := [trAwaitingPayment]
                 payments := [payPendingComp], nextId := 6 }

/-- A course with open capacity that requires backoffice approval. -/
def courseApproval : Course :=
  { id := 40, name := "Algo", slug := "algo", capacity := 5, price := 100, childrenIds := []
    requiresApproval := true, isActive := true }

/-- A FINAL registration of `userStd` for `courseApproval`. -/
def regFinalOwned : Registration :=
  { id := 50, courseId := 40, userId := 1, status := .FINAL, resumeUrl := ""
    rejectionReason := "", paymentLink := "", submittedAt := 0, decidedAt := some 1 }

/-- Store in which `userStd` already finally owns `courseApproval`. -/
def stOwned : St :=
  { emptySt with users := [userStd], courses := [courseApproval]
                 registrations := [regFinalOwned], nextId := 51 }

/-- A REJECTED registration of `userStd` for `courseApproval`, carrying a
rejection reason. -/
def regRejected : Registration :=
  { id := 50, courseId := 40, userId := 1, status := .REJECTED, resumeUrl := ""
    rejectionReason := "bad", paymentLink := "", submittedAt := 0, decidedAt := some 1 }

/-- Store for resubmission after rejection: the (course, user) row exists in
REJECTED state, nothing is owned. -/
def stRejected : St :=
  { emptySt with users := [userStd], courses := [courseApproval]
                 registrations := [regRejected], nextId := 51 }

/-- Another course, owned only through a FINAL registration elsewhere. -/
def courseChildOwned : Course :=
  { id := 20, name := "Intro", slug := "intro", capacity := 5, price := 10, childrenIds := []
    requiresApproval := true, isActive := true }

/-- A non-FINAL (REJECTED) registration of `userStd` for `courseChildOwned`. -/
def regNonFinal : Registration :=
  { id := 30, courseId := 20, userId := 1, status := .REJECTED, resumeUrl := ""
    rejectionReason := "", paymentLink := "", submittedAt := 0, decidedAt := none }

/-- A FINAL registration of `userStd` for a different parent course (21). -/
def regFinalOther : Registration :=
  { id := 31, courseId := 21, userId := 1, status := .FINAL, resumeUrl := ""
    rejectionReason := "", paymentLink := "", submittedAt := 0, decidedAt := some 1 }

/-- Store where the (courseChildOwned, userStd) registration is REJECTED, but
`courseChildOwned` is also a child item of the FINAL registration 31. -/
def stOwnedElsewhere : St :=
  { emptySt with users := [userStd], courses := [courseChildOwned]
                 registrations := [regNonFinal, regFinalOther]
                 registrationItems := [{ registrationId := 31, childCourseId := 20, price := 10 }]
                 nextId := 32 }

/-- A COURSE payment in FAILED state handed to the failure hook. -/
def payCourseFailed : Payment :=
  { id := 7, userId := 1, targetType := .COURSE, targetId := "42", amount := 5
    status := .FAILED, authority := "A7", refId := "", cardPan := "", cardHash := ""
    zarinpalCode := "-51", zarinpalMessage := "", description := "", metadata := ⟨none⟩ }

/-- A COMPETITION payment in FAILED state targeting team request 4. -/
def payCompFailed : Payment :=
  { id := 8, userId := 1, targetType := .COMPETITION, targetId := "4", amount := 700
    status := .FAILED, authority := "A8", refId := "", cardPan := "", cardHash := ""
    zarinpalCode := "-51", zarinpalMessage := "", description := "", metadata := ⟨none⟩ }

/-- A small competition for the team-size witness (teams of 2 or 3). -/
def compSized : Competition :=
  { id := 2, name := "CTF", minTeamSize := 2, maxTeamSize := 3, signupFee := 100
    requiresBackofficeApproval := false, isActive := true, fieldConfig := none }

/-- A SUCCESSFUL COMPETITION payment targeting team request 4. -/
def paySuccComp : Payment :=
  { id := 6, userId := 1, targetType := .COMPETITION, targetId := "4", amount := 700
    status := .SUCCESSFUL, authority := "AUTH4", refId := "R", cardPan := "", cardHash := ""
    zarinpalCode := "100", zarinpalMessage := "", description := "", metadata := ⟨none⟩ }

/-- The FAILED update `verify_by_authority` writes on a gateway transport
error. -/
def failedWith (p : Payment) (msg : String) : Payment :=
  { p with status := PayStatus.FAILED, zarinpalMessage := msg }

/-- The SUCCESSFUL update `verify_by_authority` writes on gateway code 100
(code, message, ref and card fields stored). -/
def successWith (p : Payment) (d : GwVerifyResp) : Payment :=
  { p with zarinpalCode := toString d.code, zarinpalMessage := d.message
           status := PayStatus.SUCCESSFUL, refId := d.refId
           cardPan := d.cardPan, cardHash := d.cardHash }

/-- The FAILED update `verify_by_authority` writes on a non-100 gateway
code. -/
def failedWithCode (p : Payment) (d : GwVerifyResp) : Payment :=
  { p with zarinpalCode := toString d.code, zarinpalMessage := d.message
           status := PayStatus.FAILED }

theorem find?_replaceByKey {α : Type} (key : α → Nat) (q : α → Bool) (l : List α) (a a' : α)
    (hfind : l.find? q = some a) (hkey : key a = key a') (hq : q a' = true) :
    (l.map (fun x => if key x == key a' then a' else x)).find? q = some a' := by
  induction l with
  | nil => simp at hfind
  | cons b l ih =>
    by_cases hqb : q b = true
    · rw [List.find?_cons_of_pos _ hqb] at hfind
      have hba : b = a := by injection hfind
      subst hba
      have hbk : (key b == key a') = true := beq_iff_eq.mpr hkey
      rw [List.map_cons, hbk]
      simp only [if_true]
      exact List.find?_cons_of_pos _ hq
    · rw [List.find?_cons_of_neg _ hqb] at hfind
      rw [List.map_cons]
      by_cases hbk : key b = key a'
      · have h1 : (key b == key a') = true := beq_iff_eq.mpr hbk
        rw [h1]
        simp only [if_true]
        exact List.find?_cons_of_pos _ hq
      · have h1 : (key b == key a') = false := beq_eq_false_iff_ne.mpr hbk
        rw [h1]
        simp only [Bool.false_eq_true, if_false]
        rw [List.find?_cons_of_neg _ hqb]
        exact ih hfind

theorem filter_replaceByKey_singleton {α : Type} (key : α → Nat) (q : α → Bool) (l : List α)
    (a a' : α) (hl : l.filter q = [a]) (hnd : (l.map key).Nodup)
    (hkey : key a = key a') (hq : q a' = true) :
    (l.map (fun x => if key x == key a' then a' else x)).filter q = [a'] := by
  induction l with
  | nil => simp at hl
  | cons b l ih =>
    rw [List.map_cons, List.nodup_cons] at hnd
    obtain ⟨hbnotin, hnd'⟩ := hnd
    by_cases hqb : q b = true
    · rw [List.filter_cons_of_pos hqb] at hl
      have hba : b = a := by injection hl
      have hfl : l.filter q = [] := by injection hl
      subst hba
      have hbk : (key b == key a') = true := beq_iff_eq.mpr hkey
      rw [List.map_cons, hbk]
      simp only [if_true]
      rw [List.filter_cons_of_pos hq]
      congr 1
      rw [List.filter_eq_nil_iff] at hfl ⊢
      intro x hx
      rw [List.mem_map] at hx
      obtain ⟨y, hy, hxy⟩ := hx
      by_cases hyk : key y = key a'
      · exact absurd (by rw [hkey, ← hyk]; exact List.mem_map_of_mem key hy) hbnotin
      · have h1 : (key y == key a') = false := beq_eq_false_iff_ne.mpr hyk
        rw [h1] at hxy
        simp only [Bool.false_eq_true, if_false] at hxy
        subst hxy
        exact hfl y hy
    · rw [List.filter_cons_of_neg hqb] at hl
      have ha_mem : a ∈ l := (List.mem_filter.mp (hl ▸ List.mem_singleton_self a)).1
      have hbk : key b ≠ key a' := by
        intro h
        exact hbnotin (by rw [h, ← hkey]; exact List.mem_map_of_mem key ha_mem)
      have h1 : (key b == key a') = false := beq_eq_false_iff_ne.mpr hbk
      rw [List.map_cons, h1]
      simp only [Bool.false_eq_true, if_false]
      rw [List.filter_cons_of_neg hqb]
      exact ih hl hnd'

theorem foldl_sendEmail_eq {β : Type} (f : β → String) (code : String) (ms : List β) (st : St) :
    ∃ L, ms.foldl (fun s m => sendEmail s (f m) code) st = { st with emails := st.emails ++ L } := by
  induction ms generalizing st with
  | nil =>
    refine ⟨[], ?_⟩
    rw [List.foldl_nil, List.append_nil]
  | cons m ms ih =>
    obtain ⟨L, hL⟩ := ih (sendEmail st (f m) code)
    refine ⟨⟨f m, code⟩ :: L, ?_⟩
    rw [List.foldl_cons, hL]
    show ({ st with emails := (st.emails ++ [⟨f m, code⟩]) ++ L } : St) = _
    rw [List.append_assoc]
    rfl

theorem foldl_saveRegistration_eq (rs : List Registration) (st : St) :
    ∃ regs, rs.foldl (fun s r => saveRegistration s r) st = { st with registrations := regs } := by
  induction rs generalizing st with
  | nil => exact ⟨st.registrations, rfl⟩
  | cons r rs ih =>
    obtain ⟨regs, h⟩ := ih (saveRegistration st r)
    refine ⟨regs, ?_⟩
    rw [List.foldl_cons, h]
    rfl

theorem reconcilePending_eq (gw : Gateway) (tt : TargetType) (tid : String)
    (auths : List String) (ps : List Payment) (st : St) :
    ∃ pays, (reconcilePending gw tt tid auths ps st).1 = { st with payments := pays } := by
  induction ps generalizing st with
  | nil => exact ⟨st.payments, rfl⟩
  | cons p ps ih =>
    rw [reconcilePending]
    split
    · split
      · exact ⟨st.payments, rfl⟩
      · split
        · dsimp only
          split
          · exact ⟨_, rfl⟩
          · obtain ⟨pays, h⟩ := ih (savePayment st _)
            refine ⟨pays, ?_⟩
            rw [h]
            rfl
        · obtain ⟨pays, h⟩ := ih (savePayment st _)
          refine ⟨pays, ?_⟩
          rw [h]
          rfl
    · exact ih st

theorem applyExtraUpdates_eq (st : St) (u : User) (e : List (String × String)) :
    ∃ ue, applyExtraUpdates st u e = { st with userExtra := ue } := by
  rw [applyExtraUpdates]
  split
  · exact ⟨st.userExtra, rfl⟩
  · exact ⟨_, rfl⟩

theorem initiate_request_step_shape (gw : Gateway) (user : User) (tt : TargetType)
    (tid : String) (amount : Int) (d : String) (m : Option PaymentMeta) (st1 : St) :
    ∃ pays n, (initiate_request_step gw user tt tid amount d m st1).1 =
      { st1 with payments := pays, nextId := n } := by
  rw [initiate_request_step]
  split
  · exact ⟨_, _, rfl⟩
  · split
    · exact ⟨_, _, rfl⟩
    · exact ⟨_, _, rfl⟩

theorem initiate_body_shape (gw : Gateway) (cfg : PayConfig) (user : User) (tt : TargetType)
    (tid : String) (amount : Int) (d : String) (m : Option PaymentMeta) (st : St) :
    ∃ pays n, (initiate_payment_body gw cfg user tt tid amount d m st).1 =
      { st with payments := pays, nextId := n } := by
  rw [initiate_payment_body]
  split
  · exact ⟨st.payments, st.nextId, rfl⟩
  · split
    · exact ⟨st.payments, st.nextId, rfl⟩
    · dsimp only
      split
      · rename_i st1 e heq
        by_cases hp : (List.filter (fun p => p.userId == user.id && p.status == PayStatus.PENDING) st.payments).isEmpty = true
        · rw [if_pos hp] at heq
          injection heq with h1 h2
          exact absurd h2 (by simp)
        · rw [if_neg hp] at heq
          obtain ⟨pays, hr⟩ := reconcilePending_eq gw tt tid (_unverified_list gw) _ st
          have hst1 : st1 = { st with payments := pays } := by rw [← hr, heq]
          exact ⟨pays, st.nextId, by rw [hst1]⟩
      · rename_i st1 heq
        obtain ⟨pays, n, h⟩ := initiate_request_step_shape gw user tt tid amount d m st1
        by_cases hp : (List.filter (fun p => p.userId == user.id && p.status == PayStatus.PENDING) st.payments).isEmpty = true
        · rw [if_pos hp] at heq
          injection heq with h1 h2
          refine ⟨pays, n, ?_⟩
          rw [h, ← h1]
        · rw [if_neg hp] at heq
          obtain ⟨pays0, hr⟩ := reconcilePending_eq gw tt tid (_unverified_list gw) _ st
          have hst1 : st1 = { st with payments := pays0 } := by rw [← hr, heq]
          refine ⟨pays, n, ?_⟩
          rw [h, hst1]

theorem initiate_wrapped_shape (gw : Gateway) (cfg : PayConfig) (user : User) (tt : TargetType)
    (tid : String) (amount : Int) (d : String) (m : Option PaymentMeta) (st : St) :
    ∃ pays n, (initiate_payment_for_target gw cfg user tt tid amount d m st).1 =
      { st with payments := pays, nextId := n } := by
  rw [initiate_payment_for_target, atomic]
  obtain ⟨pays, n, h⟩ := initiate_body_shape gw cfg user tt tid amount d m st
  split
  · rename_i a st2 ares heq
    refine ⟨pays, n, ?_⟩
    rw [← h, heq]
  · exact ⟨st.payments, st.nextId, rfl⟩

theorem capacity_policy :
    (∀ taken : Int, _is_full none taken = false) ∧
    (∀ taken : Int, _is_full (some 0) taken = true) ∧
    (∀ (cap taken : Int), cap ≠ 0 → _is_full (some cap) taken = decide (taken ≥ cap)) ∧
    (∀ s : RegStatus, seat_consuming s = true ↔ (s = RegStatus.APPROVED ∨ s = RegStatus.FINAL)) ∧
    (∀ (st : St) (c : Course),
      _parent_capacity_full st c = _is_full (some (Int.ofNat c.capacity)) (seat_count st c) ∧
      _child_capacity_full st c = _parent_capacity_full st c) := by
  refine ⟨fun _ => rfl, fun _ => rfl, ?_, ?_, fun st c => ⟨rfl, rfl⟩⟩
  · intro cap taken hcap
    have h : (cap == 0) = false := beq_eq_false_iff_ne.mpr hcap
    simp [_is_full, h]
  · intro s
    cases s <;> simp [seat_consuming]

theorem capacity_policy_witness :
    (5:Int) ≠ 0 ∧ _is_full (some 5) 7 = decide ((7:Int) ≥ 5) :=
  ⟨by decide, capacity_policy.2.2.1 5 7 (by decide)⟩

theorem team_size_guard :
    ∀ (competition : Competition) (submitter : User) (teamName : Option String)
      (participants : List Participant) (tokenFor : Nat → String) (now : Nat) (st : St),
      submitter.isAuthenticated = true → submitter.isEmailVerified = true →
      (participants.length < competition.minTeamSize ∨
        competition.maxTeamSize < participants.length) →
      submit_team_request competition submitter teamName participants tokenFor now st =
        (st, Except.error (Err.api EC.COMP_TEAM_SIZE_INVALID 400)) := by
  intro comp sub tn ps tok now st hauth hver hsize
  have hcond : (decide (ps.length < comp.minTeamSize) ||
      decide (comp.maxTeamSize < ps.length)) = true := by
    rcases hsize with h | h <;> simp [h]
  have hbody : submit_team_request_body comp sub tn ps tok now st =
      (st, Except.error (Err.api EC.COMP_TEAM_SIZE_INVALID 400)) := by
    rw [submit_team_request_body, hauth, hver]
    simp only [Bool.and_self, Bool.not_true, Bool.false_eq_true, if_false]
    rw [hcond]
    simp
  rw [submit_team_request, atomic, hbody]

theorem team_size_guard_witness :
    userStd.isAuthenticated = true ∧ ([] : List Participant).length < compSized.minTeamSize ∧
    submit_team_request compSized userStd none [] (fun _ => "t") 0 emptySt =
      (emptySt, Except.error (Err.api EC.COMP_TEAM_SIZE_INVALID 400)) :=
  ⟨rfl, by decide,
   team_size_guard compSized userStd none [] (fun _ => "t") 0 emptySt rfl rfl (Or.inl (by decide))⟩

theorem on_payment_failure_course_noop :
    (∀ (st : St) (p : Payment), p.targetType = TargetType.COURSE →
      on_payment_failure st p = (st, Except.ok ())) ∧
    (∀ (st : St) (p : Payment) (tid : Nat) (tr : TeamRequest),
      p.targetType = TargetType.COMPETITION → pyInt? p.targetId = some tid →
      findTeamRequest st tid = some tr →
      trStatus? (on_payment_failure st p).1 tid = some TRStatus.PAYMENT_REJECTED) := by
  constructor
  · intro st p h
    rw [on_payment_failure, h]
  · intro st p tid tr h hparse hfind
    have hfind2 : st.teamRequests.find? (fun t => t.id == tid) = some tr := hfind
    have h0 := List.find?_some hfind2
    have hid : tr.id = tid := beq_iff_eq.mp h0
    rw [on_payment_failure, h]
    simp only [hparse, hfind]
    have h2 : findTeamRequest (mark_payment_rejected st tr).1 tid =
        some { tr with status := TRStatus.PAYMENT_REJECTED } := by
      show findTeamRequest (saveTeamRequest st { tr with status := TRStatus.PAYMENT_REJECTED }) tid = _
      rw [findTeamRequest, saveTeamRequest]
      exact find?_replaceByKey (fun t : TeamRequest => t.id) (fun t : TeamRequest => t.id == tid)
        st.teamRequests tr { tr with status := TRStatus.PAYMENT_REJECTED } hfind2 rfl
        (beq_iff_eq.mpr hid)
    rw [trStatus?, h2]
    rfl

theorem on_payment_failure_course_noop_witness :
    payCourseFailed.targetType = TargetType.COURSE ∧
    on_payment_failure stBundle payCourseFailed = (stBundle, Except.ok ()) ∧
    trStatus? (on_payment_failure stVerify payCompFailed).1 4 = some TRStatus.PAYMENT_REJECTED :=
  ⟨rfl, on_payment_failure_course_noop.1 stBundle payCourseFailed rfl,
   on_payment_failure_course_noop.2 stVerify payCompFailed 4 trAwaitingPayment rfl rfl rfl⟩

theorem mark_payment_final_overrides_cancelled :
    terminalStatus trCancelled.status = true ∧
    trStatus? stTerminal 1 = some TRStatus.CANCELLED ∧
    trStatus? (mark_payment_final stTerminal trCancelled).1 1 = some TRStatus.FINAL :=
  ⟨rfl, rfl, rfl⟩

theorem initiate_error_row_not_durable :
    (initiate_payment_body gwRefuse cfgStd userStd TargetType.COURSE "7" 1000 "" none stPayUser =
      ({ stPayUser with payments := [rowInitErr], nextId := 2 },
        Except.error (Err.api EC.PAY_GATEWAY_REFUSED 409))) ∧
    (initiate_payment_for_target gwRefuse cfgStd userStd TargetType.COURSE "7" 1000 "" none stPayUser =
      (stPayUser, Except.error (Err.api EC.PAY_GATEWAY_REFUSED 409))) ∧
    (initiate_payment_body gwDown cfgStd userStd TargetType.COURSE "7" 1000 "" none stPayUser =
      ({ stPayUser with payments := [rowInitErrDown], nextId := 2 },
        Except.error (Err.api EC.PAY_INIT_FAILED 409))) ∧
    (initiate_payment_for_target gwDown cfgStd userStd TargetType.COURSE "7" 1000 "" none stPayUser =
      (stPayUser, Except.error (Err.api EC.PAY_INIT_FAILED 409))) ∧
    stPayUser.payments = [] :=
  ⟨rfl, rfl, rfl, rfl, rfl⟩

theorem course_bundle_target_id_mismatch :
    ((on_payment_success 99 stBundle payBundle).2 = Except.ok () ∧
      regStatusById? (on_payment_success 99 stBundle payBundle).1 42 = some RegStatus.FINAL ∧
      regStatusById? (on_payment_success 99 stBundle payBundle).1 101 = some RegStatus.FINAL) ∧
    (trStatus? (on_payment_success 99 stVerify paySuccComp).1 4 = some TRStatus.FINAL) ∧
    targetIdFieldPrep payBundle.targetId = none ∧
    targetIdFieldPrep paySuccComp.targetId = some 4 :=
  ⟨⟨rfl, rfl, rfl⟩, rfl, rfl, rfl⟩

theorem terminal_guarded_ops_frozen :
    (∀ (gw : Gateway) (cfg : PayConfig) (now : Nat) (st : St) (rid : Nat) (token : String)
        (accept : Bool) (t : TeamRequest),
      findTeamRequest st rid = some t → terminalStatus t.status = true →
      trStatus? (approve_or_reject_member gw cfg now rid token accept st).1 rid = trStatus? st rid) ∧
    (∀ (tr : TeamRequest) (byUser : User) (st : St), terminalStatus tr.status = true →
      (cancel_request tr byUser st).1 = st) ∧
    (∀ (gw : Gateway) (cfg : PayConfig) (tr : TeamRequest) (st : St), terminalStatus tr.status = true →
      (backoffice_approve_request gw cfg tr st).1 = st) ∧
    (∀ (tr : TeamRequest) (reason : String) (st : St), terminalStatus tr.status = true →
      (backoffice_reject_request tr reason st).1 = st) := by
  refine ⟨?_, ?_, ?_, ?_⟩
  · intro gw cfg now st rid token accept t hfind hterm
    have hbody : ∀ (st2 : St) (m : TeamMember),
        approve_or_reject_member_body gw cfg now rid token accept st = (st2, Except.ok m) →
        trStatus? st2 rid = trStatus? st rid := by
      intro st2 m hb
      rw [approve_or_reject_member_body] at hb
      split at hb
      · exact absurd (congrArg Prod.snd hb) (by simp)
      · exact absurd (congrArg Prod.snd hb) (by simp)
      · split at hb
        · -- already decided: returns (st, ok member)
          have h1 : st = st2 := congrArg Prod.fst hb
          rw [← h1]
        · split at hb
          · exact absurd (congrArg Prod.snd hb) (by simp)
          · rename_i member hmem hdec hexp
            dsimp only at hb
            split at hb
            · exact absurd (congrArg Prod.snd hb) (by simp)
            · rename_i tr' heq'
              -- the member found matches the request id
              have hmem_req : (member.requestId == rid) = true := by
                have hm : member ∈ st.teamMembers.filter (fun m =>
                    m.requestId == rid && m.approvalTokenHash == some (_hash_token token)) := by
                  rw [hmem]; exact List.mem_singleton_self member
                have hpm := (List.mem_filter.mp hm).2
                simp only [Bool.and_eq_true] at hpm
                exact hpm.1
              have hreq : member.requestId = rid := beq_iff_eq.mp hmem_req
              -- the looked-up request is the hypothesised terminal one
              have heq2 : findTeamRequest st rid = some tr' := by
                rw [← hreq]
                exact heq'
              have htt : tr' = t := by
                rw [hfind] at heq2
                injection heq2 with h
                exact h.symm
              split at hb
              · -- tr'.status == PENDING_APPROVAL contradicts terminality
                rename_i hpa
                rw [htt] at hpa
                cases hs : t.status <;> rw [hs] at hpa hterm <;> simp [terminalStatus] at hpa hterm
              · have h1 : saveTeamMember st _ = st2 := congrArg Prod.fst hb
                rw [← h1]
                rfl
    rw [approve_or_reject_member, atomic]
    split
    · rename_i st2 m heq
      exact hbody st2 m heq
    · rfl
  · intro tr byUser st hterm
    have hstatus : (tr.status == TRStatus.PENDING_APPROVAL ||
        tr.status == TRStatus.PENDING_INVESTIGATION) = false := by
      cases hs : tr.status <;> rw [hs] at hterm <;> simp [terminalStatus] at hterm ⊢
    have hbody : ∃ e, cancel_request_body tr byUser st = (st, Except.error e) := by
      rw [cancel_request_body]
      split
      · exact ⟨_, rfl⟩
      · split
        · exact ⟨_, rfl⟩
        · split
          · exact ⟨_, rfl⟩
          · rw [hstatus]
            simp only [Bool.not_false, if_true]
            exact ⟨_, rfl⟩
    obtain ⟨e, hb⟩ := hbody
    rw [cancel_request, atomic, hb]
  · intro gw cfg tr st hterm
    have hne : (tr.status != TRStatus.PENDING_INVESTIGATION) = true := by
      cases hs : tr.status <;> rw [hs] at hterm <;> simp [terminalStatus] at hterm ⊢
    have hbody : backoffice_approve_request_body gw cfg tr st =
        (st, Except.error (Err.api EC.COMP_NOT_IN_INVESTIGATION_STATE 409)) := by
      rw [backoffice_approve_request_body, hne]
      simp
    rw [backoffice_approve_request, atomic, hbody]
  · intro tr reason st hterm
    have hstatus : (tr.status == TRStatus.PENDING_INVESTIGATION ||
        tr.status == TRStatus.PENDING_APPROVAL) = false := by
      cases hs : tr.status <;> rw [hs] at hterm <;> simp [terminalStatus] at hterm ⊢
    have hbody : backoffice_reject_request_body tr reason st =
        (st, Except.error (Err.api EC.COMP_BACKOFFICE_REJECT_INVALID_STATE 409)) := by
      rw [backoffice_reject_request_body, hstatus]
      simp
    rw [backoffice_reject_request, atomic, hbody]

theorem terminal_guarded_ops_frozen_witness :
    findTeamRequest stTerminal 1 = some trCancelled ∧ terminalStatus trCancelled.status = true ∧
    trStatus? (approve_or_reject_member gwDummy cfgStd 0 1 "x" true stTerminal).1 1 =
      trStatus? stTerminal 1 ∧
    (cancel_request trCancelled userStd stTerminal).1 = stTerminal ∧
    (backoffice_approve_request gwDummy cfgStd trCancelled stTerminal).1 = stTerminal ∧
    (backoffice_reject_request trCancelled "r" stTerminal).1 = stTerminal :=
  ⟨rfl, rfl,
   terminal_guarded_ops_frozen.1 gwDummy cfgStd 0 stTerminal 1 "x" true trCancelled rfl rfl,
   terminal_guarded_ops_frozen.2.1 trCancelled userStd stTerminal rfl,
   terminal_guarded_ops_frozen.2.2.1 gwDummy cfgStd trCancelled stTerminal rfl,
   terminal_guarded_ops_frozen.2.2.2 trCancelled "r" stTerminal rfl⟩

theorem filter_replace_none {α : Type} (key : α → Nat) (q : α → Bool) (l : List α) (a a' : α)
    (hl : l.filter q = [a]) (hkey : key a' = key a) (hq : q a' = false) :
    (l.map (fun x => if key x == key a' then a' else x)).filter q = [] := by
  rw [List.filter_eq_nil_iff]
  intro x hx
  rw [List.mem_map] at hx
  obtain ⟨y, hy, hxy⟩ := hx
  by_cases hk : key y = key a'
  · have h1 : (key y == key a') = true := beq_iff_eq.mpr hk
    rw [h1] at hxy
    simp only [if_true] at hxy
    rw [← hxy]
    simp [hq]
  · have h1 : (key y == key a') = false := beq_eq_false_iff_ne.mpr hk
    rw [h1] at hxy
    simp only [Bool.false_eq_true, if_false] at hxy
    subst hxy
    intro hqy
    have hymem : y ∈ l.filter q := List.mem_filter.mpr ⟨hy, hqy⟩
    rw [hl, List.mem_singleton] at hymem
    subst hymem
    exact hk (hkey.symm)

theorem approve_second_call_raises :
    (approve_or_reject_member gwDummy cfgStd 50 1 "tok" true stToken).2 =
      Except.ok memberTokApproved ∧
    memberTokApproved.approvalStatus = ApprovalStatus.APPROVED ∧
    (approve_or_reject_member gwDummy cfgStd 60 1 "tok" true
        (approve_or_reject_member gwDummy cfgStd 50 1 "tok" true stToken).1).2 =
      Except.error (Err.api EC.COMP_INVALID_OR_EXPIRED_TOKEN 400) :=
  ⟨rfl, rfl, rfl⟩

theorem approval_token_single_use :
    ∀ (gw gw2 : Gateway) (cfg cfg2 : PayConfig) (now now2 : Nat) (st st2 : St)
      (rid : Nat) (token : String) (accept accept2 : Bool) (m : TeamMember),
      approve_or_reject_member gw cfg now rid token accept st = (st2, Except.ok m) →
      m.approvalTokenHash = none →
      approve_or_reject_member gw2 cfg2 now2 rid token accept2 st2 =
        (st2, Except.error (Err.api EC.COMP_INVALID_OR_EXPIRED_TOKEN 400)) := by
  intro gw gw2 cfg cfg2 now now2 st st2 rid token accept accept2 m hcall hnone
  have hfe : st2.teamMembers.filter (fun x =>
      x.requestId == rid && x.approvalTokenHash == some (_hash_token token)) = [] := by
    rw [approve_or_reject_member, atomic] at hcall
    split at hcall
    · rename_i stb mb heqb
      have hst : stb = st2 := congrArg Prod.fst hcall
      have hm : mb = m := by
        have h2 := congrArg Prod.snd hcall
        injection h2
      rw [← hst]
      rw [hm] at heqb
      rw [approve_or_reject_member_body] at heqb
      split at heqb
      · exact absurd (congrArg Prod.snd heqb) (by simp)
      · exact absurd (congrArg Prod.snd heqb) (by simp)
      · rename_i member hmem
        split at heqb
        · -- already-decided branch: the member still matched by the token, but
          -- the returned member would then carry the live hash, not none
          have hmm : member = m := by
            have h2 := congrArg Prod.snd heqb
            injection h2
          have hmemq : member ∈ st.teamMembers.filter (fun x =>
              x.requestId == rid && x.approvalTokenHash == some (_hash_token token)) := by
            rw [hmem]
            exact List.mem_singleton_self member
          have hps := (List.mem_filter.mp hmemq).2
          simp only [Bool.and_eq_true] at hps
          have hhash := hps.2
          rw [hmm, hnone] at hhash
          simp at hhash
        · split at heqb
          · exact absurd (congrArg Prod.snd heqb) (by simp)
          · dsimp only at heqb
            split at heqb
            · exact absurd (congrArg Prod.snd heqb) (by simp)
            · rename_i tr heqtr
              have hstep : ∀ stX : St,
                  (stX, (Except.ok { member with approvalStatus := decidedStatus accept, approvalAt := some now, approvalTokenHash := none } : Except Err TeamMember)) = (stb, Except.ok m) →
                  stX.teamMembers = (saveTeamMember st { member with approvalStatus := decidedStatus accept, approvalAt := some now, approvalTokenHash := none }).teamMembers →
                  stb.teamMembers.filter (fun x =>
                    x.requestId == rid && x.approvalTokenHash == some (_hash_token token)) = [] := by
                intro stX heqX hX
                have hst2 : stX = stb := congrArg Prod.fst heqX
                rw [← hst2, hX]
                exact filter_replace_none (fun x : TeamMember => x.id)
                  (fun x => x.requestId == rid && x.approvalTokenHash == some (_hash_token token))
                  st.teamMembers member _ hmem rfl (by simp)
              split at heqb
              · split at heqb
                · exact hstep _ heqb rfl
                · split at heqb
                  · split at heqb
                    · exact absurd (congrArg Prod.snd heqb) (by simp)
                    · rename_i comp heqcomp
                      split at heqb
                      · exact hstep _ heqb rfl
                      · split at heqb
                        · exact absurd (congrArg Prod.snd heqb) (by simp)
                        · rename_i submitter hequser
                          split at heqb
                          · exact absurd (congrArg Prod.snd heqb) (by simp)
                          · rename_i stI result heqinit
                            obtain ⟨pays, n, hsh⟩ := initiate_wrapped_shape gw cfg submitter
                              TargetType.COMPETITION (toString tr.id) comp.signupFee
                              ("Competition " ++ comp.name ++ " #" ++ toString tr.id) none
                              (saveTeamMember st { member with approvalStatus := decidedStatus accept, approvalAt := some now, approvalTokenHash := none })
                            have h1 := congrArg Prod.fst heqinit
                            dsimp only at h1
                            have hTm : stI.teamMembers = (saveTeamMember st { member with approvalStatus := decidedStatus accept, approvalAt := some now, approvalTokenHash := none }).teamMembers := by
                              rw [← h1, hsh]
                            exact hstep _ heqb hTm
                  · exact hstep _ heqb rfl
              · exact hstep _ heqb rfl
    · exact absurd (congrArg Prod.snd hcall) (by simp)
  have hbody2 : approve_or_reject_member_body gw2 cfg2 now2 rid token accept2 st2 =
      (st2, Except.error (Err.api EC.COMP_INVALID_OR_EXPIRED_TOKEN 400)) := by
    rw [approve_or_reject_member_body, hfe]
  rw [approve_or_reject_member, atomic, hbody2]

theorem approval_token_single_use_witness :
    memberTokApproved.approvalTokenHash = none ∧
    approve_or_reject_member gwDummy cfgStd 60 1 "tok" false
        (approve_or_reject_member gwDummy cfgStd 50 1 "tok" true stToken).1 =
      ((approve_or_reject_member gwDummy cfgStd 50 1 "tok" true stToken).1,
        Except.error (Err.api EC.COMP_INVALID_OR_EXPIRED_TOKEN 400)) :=
  ⟨rfl, approval_token_single_use gwDummy gwDummy cfgStd cfgStd 50 60 stToken
      ((approve_or_reject_member gwDummy cfgStd 50 1 "tok" true stToken).1) 1 "tok" true false
      memberTokApproved rfl rfl⟩

theorem resubmit_after_final_conflicts :
    ∀ (gw : Gateway) (cfg : PayConfig) (now : Nat) (course : Course) (user : User)
      (extraUpdates : List (String × String)) (childIds0 : List Nat) (resumeUrl : Option String)
      (st : St) (reg : Registration),
      user.isAuthenticated = true → user.isEmailVerified = true →
      (validChildrenOf st course childIds0).length = (dedupKeepOrder childIds0).length →
      findRegistration st course.id user.id = some reg →
      reg.status = RegStatus.FINAL →
      submit_registration gw cfg now course user extraUpdates childIds0 resumeUrl st =
        (st, Except.error (Err.api EC.REG_ALREADY_OWNED 409)) := by
  intro gw cfg now course user extraUpdates childIds0 resumeUrl st reg hauth hver hv hfind hfinal
  have hfind2 : st.registrations.find? (fun r => r.courseId == course.id && r.userId == user.id) =
      some reg := hfind
  have hpred := List.find?_some hfind2
  simp only [Bool.and_eq_true] at hpred
  have hcid : reg.courseId = course.id := beq_iff_eq.mp hpred.1
  have huid : reg.userId = user.id := beq_iff_eq.mp hpred.2
  have hmem : reg ∈ st.registrations := List.mem_of_find?_eq_some hfind2
  have hfin : reg ∈ st.registrations.filter (fun r =>
      r.userId == user.id && r.status == RegStatus.FINAL) := by
    refine List.mem_filter.mpr ⟨hmem, ?_⟩
    simp [huid, hfinal]
  have hmap : course.id ∈ (st.registrations.filter (fun r =>
      r.userId == user.id && r.status == RegStatus.FINAL)).map (fun r => r.courseId) := by
    rw [← hcid]
    exact List.mem_map_of_mem (fun r => r.courseId) hfin
  have hcontains : (ownedIdsOf st user).contains course.id = true := by
    rw [ownedIdsOf]
    have : course.id ∈ (st.registrations.filter (fun r =>
        r.userId == user.id && r.status == RegStatus.FINAL)).map (fun r => r.courseId) ++
        ((st.registrationItems.filter (fun it =>
          (st.registrations.filter (fun r => r.userId == user.id && r.status == RegStatus.FINAL)).any
            (fun r => r.id == it.registrationId))).map (fun it => it.childCourseId)) :=
      List.mem_append.mpr (Or.inl hmap)
    simpa using this
  have hlen : ((validChildrenOf st course childIds0).length !=
      (dedupKeepOrder childIds0).length) = false := by
    rw [hv]
    simp
  have hbody : submit_registration_body gw cfg now course user extraUpdates childIds0 resumeUrl st =
      (st, Except.error (Err.api EC.REG_ALREADY_OWNED 409)) := by
    rw [submit_registration_body, hauth, hver]
    simp only [Bool.and_self, Bool.not_true, Bool.false_eq_true, if_false]
    rw [hlen]
    simp only [Bool.false_eq_true, if_false]
    rw [hcontains]
    simp only [if_true]
  rw [submit_registration, atomic, hbody]

theorem resubmit_after_final_conflicts_witness :
    regFinalOwned.status = RegStatus.FINAL ∧
    findRegistration stOwned courseApproval.id userStd.id = some regFinalOwned ∧
    submit_registration gwDummy cfgStd 5 courseApproval userStd [] [] none stOwned =
      (stOwned, Except.error (Err.api EC.REG_ALREADY_OWNED 409)) :=
  ⟨rfl, rfl,
   resubmit_after_final_conflicts gwDummy cfgStd 5 courseApproval userStd [] [] none stOwned
     regFinalOwned rfl rfl rfl rfl rfl⟩

theorem resubmit_nonfinal_owned_elsewhere :
    regNonFinal.status ≠ RegStatus.FINAL ∧
    findRegistration stOwnedElsewhere courseChildOwned.id userStd.id = some regNonFinal ∧
    (submit_registration gwDummy cfgStd 9 courseChildOwned userStd [] [] none stOwnedElsewhere).2 =
      Except.error (Err.api EC.REG_ALREADY_OWNED 409) :=
  ⟨by decide, rfl, rfl⟩

theorem resubmit_nonfinal_resets :
    ∀ (gw : Gateway) (cfg : PayConfig) (now : Nat) (course : Course) (user : User)
      (extraUpdates : List (String × String)) (childIds0 : List Nat) (resumeUrl : Option String)
      (st : St) (reg : Registration),
      user.isAuthenticated = true → user.isEmailVerified = true →
      (validChildrenOf st course childIds0).length = (dedupKeepOrder childIds0).length →
      (ownedIdsOf st user).contains course.id = false →
      ((validChildrenOf st course childIds0).filter
        (fun c => (ownedIdsOf st user).contains c.id)).isEmpty = true →
      findRegistration st course.id user.id = some reg →
      reg.status ≠ RegStatus.FINAL →
      course.requiresApproval = true →
      ∃ (st2 : St) (r2 : Registration),
        submit_registration gw cfg now course user extraUpdates childIds0 resumeUrl st =
          (st2, Except.ok r2) ∧
        r2 = resetRegistration now resumeUrl
          (forcedWaitlistFor st course (validChildrenOf st course childIds0)) reg ∧
        r2.rejectionReason = "" ∧
        r2.submittedAt = now ∧
        (r2.status = RegStatus.RESERVED ↔
          forcedWaitlistFor st course (validChildrenOf st course childIds0) = true) ∧
        (r2.status = RegStatus.RESERVED ∨ r2.status = RegStatus.QUEUED) ∧
        findRegistration st2 course.id user.id = some r2 ∧
        itemsOf st2 reg.id = (validChildrenOf st course childIds0).map (fun c =>
          ({ registrationId := reg.id, childCourseId := c.id, price := c.price } : RegistrationItem)) := by
  intro gw cfg now course user extraUpdates childIds0 resumeUrl st reg
  intro hauth hver hv hno hnc hfind hnf happrove
  have hfind2 : st.registrations.find? (fun r => r.courseId == course.id && r.userId == user.id) =
      some reg := hfind
  have hlen : ((validChildrenOf st course childIds0).length !=
      (dedupKeepOrder childIds0).length) = false := by
    rw [hv]
    simp
  have hnfb : (reg.status == RegStatus.FINAL) = false := beq_eq_false_iff_ne.mpr hnf
  have hbody : submit_registration_body gw cfg now course user extraUpdates childIds0 resumeUrl st =
      (sendEmail
        (replaceItems
          (applyExtraUpdates
            (saveRegistration st (resetRegistration now resumeUrl
              (forcedWaitlistFor st course (validChildrenOf st course childIds0)) reg))
            user extraUpdates)
          (resetRegistration now resumeUrl
            (forcedWaitlistFor st course (validChildrenOf st course childIds0)) reg)
          (validChildrenOf st course childIds0))
        user.email "COURSE_REQUEST_SUBMITTED",
       Except.ok (resetRegistration now resumeUrl
         (forcedWaitlistFor st course (validChildrenOf st course childIds0)) reg)) := by
    rw [submit_registration_body, hauth, hver]
    simp only [Bool.and_self, Bool.not_true, Bool.false_eq_true, if_false]
    rw [hlen]
    simp only [Bool.false_eq_true, if_false]
    rw [hno]
    simp only [Bool.false_eq_true, if_false]
    rw [hnc]
    simp only [Bool.not_true, Bool.false_eq_true, if_false]
    rw [hfind]
    dsimp only
    rw [hnfb]
    simp only [Bool.not_false, Bool.true_and, Bool.false_eq_true, if_false]
    rw [happrove]
    simp only [Bool.true_or, Bool.not_true, Bool.false_and, Bool.false_eq_true, if_false]
  refine ⟨sendEmail
      (replaceItems
        (applyExtraUpdates
          (saveRegistration st (resetRegistration now resumeUrl
            (forcedWaitlistFor st course (validChildrenOf st course childIds0)) reg))
          user extraUpdates)
        (resetRegistration now resumeUrl
          (forcedWaitlistFor st course (validChildrenOf st course childIds0)) reg)
        (validChildrenOf st course childIds0))
      user.email "COURSE_REQUEST_SUBMITTED",
    resetRegistration now resumeUrl
      (forcedWaitlistFor st course (validChildrenOf st course childIds0)) reg,
    ?_, rfl, rfl, rfl, ?_, ?_, ?_, ?_⟩
  · rw [submit_registration, atomic, hbody]
  · by_cases hf : forcedWaitlistFor st course (validChildrenOf st course childIds0) = true
    · simp [resetRegistration, hf]
    · simp only [Bool.not_eq_true] at hf
      simp [resetRegistration, hf]
  · by_cases hf : forcedWaitlistFor st course (validChildrenOf st course childIds0) = true
    · simp [resetRegistration, hf]
    · simp only [Bool.not_eq_true] at hf
      simp [resetRegistration, hf]
  · -- the saved row is found back
    obtain ⟨ue, hext⟩ := applyExtraUpdates_eq
      (saveRegistration st (resetRegistration now resumeUrl
        (forcedWaitlistFor st course (validChildrenOf st course childIds0)) reg))
      user extraUpdates
    have hsave : findRegistration (saveRegistration st (resetRegistration now resumeUrl
        (forcedWaitlistFor st course (validChildrenOf st course childIds0)) reg))
        course.id user.id = some (resetRegistration now resumeUrl
        (forcedWaitlistFor st course (validChildrenOf st course childIds0)) reg) := by
      rw [findRegistration, saveRegistration]
      refine find?_replaceByKey (fun r : Registration => r.id)
        (fun r : Registration => r.courseId == course.id && r.userId == user.id)
        st.registrations reg _ hfind2 rfl ?_
      have hq0 := List.find?_some hfind2
      exact hq0
    show findRegistration (sendEmail (replaceItems (applyExtraUpdates _ user extraUpdates) _ _)
      user.email "COURSE_REQUEST_SUBMITTED") course.id user.id = _
    rw [hext]
    exact hsave
  · obtain ⟨ue, hext⟩ := applyExtraUpdates_eq
      (saveRegistration st (resetRegistration now resumeUrl
        (forcedWaitlistFor st course (validChildrenOf st course childIds0)) reg))
      user extraUpdates
    show itemsOf (sendEmail (replaceItems (applyExtraUpdates _ user extraUpdates) _ _)
      user.email "COURSE_REQUEST_SUBMITTED") reg.id = _
    rw [itemsOf, hext]
    show ((st.registrationItems.filter (fun it => it.registrationId != reg.id) ++
      (validChildrenOf st course childIds0).map (fun c =>
        ({ registrationId := reg.id, childCourseId := c.id, price := c.price } : RegistrationItem))).filter
        (fun it => it.registrationId == reg.id)) = _
    rw [List.filter_append]
    have h1 : (st.registrationItems.filter (fun it => it.registrationId != reg.id)).filter
        (fun it => it.registrationId == reg.id) = [] := by
      rw [List.filter_eq_nil_iff]
      intro x hx
      have hne := (List.mem_filter.mp hx).2
      simp only [bne_iff_ne, ne_eq] at hne
      simp [hne]
    have h2 : ((validChildrenOf st course childIds0).map (fun c =>
        ({ registrationId := reg.id, childCourseId := c.id, price := c.price } : RegistrationItem))).filter
        (fun it => it.registrationId == reg.id) =
        (validChildrenOf st course childIds0).map (fun c =>
        ({ registrationId := reg.id, childCourseId := c.id, price := c.price } : RegistrationItem)) := by
      rw [List.filter_eq_self]
      intro x hx
      rw [List.mem_map] at hx
      obtain ⟨c, hc, hxc⟩ := hx
      rw [← hxc]
      simp
    rw [h1, h2, List.nil_append]

theorem resubmit_nonfinal_resets_witness :
    ∃ (st2 : St) (r2 : Registration),
      submit_registration gwDummy cfgStd 7 courseApproval userStd [] [] none stRejected =
        (st2, Except.ok r2) ∧
      r2 = resetRegistration 7 none
        (forcedWaitlistFor stRejected courseApproval (validChildrenOf stRejected courseApproval []))
        regRejected ∧
      r2.rejectionReason = "" ∧
      r2.submittedAt = 7 ∧
      (r2.status = RegStatus.RESERVED ↔
        forcedWaitlistFor stRejected courseApproval (validChildrenOf stRejected courseApproval []) = true) ∧
      (r2.status = RegStatus.RESERVED ∨ r2.status = RegStatus.QUEUED) ∧
      findRegistration st2 courseApproval.id userStd.id = some r2 ∧
      itemsOf st2 regRejected.id = [] :=
  resubmit_nonfinal_resets gwDummy cfgStd 7 courseApproval userStd [] [] none stRejected
    regRejected rfl rfl rfl rfl rfl rfl (by decide) rfl

theorem verify_notfound (gw : Gateway) (now : Nat) (u : User) (a : String) (st : St)
    (hauth : u.isAuthenticated = true) (hp : paymentsFor st u.id a = []) :
    verify_by_authority gw now u a st =
      (st, Except.error (Err.api EC.PAY_NOT_FOUND_FOR_USER 404)) := by
  have hb : verify_by_authority_body gw now u a st =
      (st, Except.error (Err.api EC.PAY_NOT_FOUND_FOR_USER 404)) := by
    rw [verify_by_authority_body, hauth]
    simp only [Bool.not_true, Bool.false_eq_true, if_false]
    rw [hp]
  rw [verify_by_authority, atomic, hb]

theorem verify_nonpending (gw : Gateway) (now : Nat) (u : User) (a : String) (st : St) (p : Payment)
    (hauth : u.isAuthenticated = true) (hp : paymentsFor st u.id a = [p])
    (hnp : p.status ≠ PayStatus.PENDING) :
    verify_by_authority gw now u a st = (st, Except.ok p) := by
  have hnpb : (p.status != PayStatus.PENDING) = true := by
    simp [bne_iff_ne, hnp]
  have hb : verify_by_authority_body gw now u a st = (st, Except.ok p) := by
    rw [verify_by_authority_body, hauth]
    simp only [Bool.not_true, Bool.false_eq_true, if_false]
    rw [hp]
    dsimp only
    rw [hnpb]
    simp only [if_true]
  rw [verify_by_authority, atomic, hb]

theorem verify_pending_transport (gw : Gateway) (now : Nat) (u : User) (a : String) (st : St)
    (p : Payment) (tid : Nat) (tr : TeamRequest) (msg : String)
    (hauth : u.isAuthenticated = true) (hp : paymentsFor st u.id a = [p])
    (hnd : (st.payments.map (fun q => q.id)).Nodup)
    (hpend : p.status = PayStatus.PENDING)
    (hverify : gw.verify a = GwAnswer.transportError msg)
    (htt : p.targetType = TargetType.COMPETITION)
    (hparse : pyInt? p.targetId = some tid)
    (hfindtr : findTeamRequest st tid = some tr) :
    (verify_by_authority gw now u a st).2 = Except.ok (failedWith p msg) ∧
    paymentsFor (verify_by_authority gw now u a st).1 u.id a = [failedWith p msg] ∧
    trStatus? (verify_by_authority gw now u a st).1 tid = some TRStatus.PAYMENT_REJECTED := by
  have hpendb : (p.status != PayStatus.PENDING) = false := by
    rw [hpend]
    simp
  have hfindtr2 : st.teamRequests.find? (fun t => t.id == tid) = some tr := hfindtr
  have htrp := List.find?_some hfindtr2
  have htrid : tr.id = tid := beq_iff_eq.mp htrp
  have hfind3 : findTeamRequest (savePayment st (failedWith p msg)) tid = some tr := hfindtr
  have hbody : verify_by_authority_body gw now u a st =
      (sendEmail
        (saveTeamRequest (savePayment st (failedWith p msg))
          { tr with status := TRStatus.PAYMENT_REJECTED })
        (userEmail
          (saveTeamRequest (savePayment st (failedWith p msg))
            { tr with status := TRStatus.PAYMENT_REJECTED })
          tr.submitterId)
        "COMPETITION_PAYMENT_REJECTED",
       Except.ok (failedWith p msg)) := by
    rw [verify_by_authority_body, hauth]
    simp only [Bool.not_true, Bool.false_eq_true, if_false]
    rw [hp]
    dsimp only
    rw [hpendb]
    simp only [Bool.false_eq_true, if_false]
    rw [hverify]
    dsimp only
    have hhook : on_payment_failure (savePayment st (failedWith p msg)) (failedWith p msg) =
        ((mark_payment_rejected (savePayment st (failedWith p msg)) tr).1, Except.ok ()) := by
      rw [on_payment_failure]
      have h1 : (failedWith p msg).targetType = TargetType.COMPETITION := htt
      rw [h1]
      dsimp only
      have h2 : pyInt? (failedWith p msg).targetId = some tid := hparse
      rw [h2]
      dsimp only
      rw [hfind3]
    simp only [failedWith] at hhook
    rw [hhook]
    dsimp only
    rw [mark_payment_rejected]
    rfl
  have hfull : verify_by_authority gw now u a st =
      (sendEmail
        (saveTeamRequest (savePayment st (failedWith p msg))
          { tr with status := TRStatus.PAYMENT_REJECTED })
        (userEmail
          (saveTeamRequest (savePayment st (failedWith p msg))
            { tr with status := TRStatus.PAYMENT_REJECTED })
          tr.submitterId)
        "COMPETITION_PAYMENT_REJECTED",
       Except.ok (failedWith p msg)) := by
    rw [verify_by_authority, atomic, hbody]
  have hp2 : st.payments.filter (fun q => q.userId == u.id && q.authority == a) = [p] := hp
  have hpm : p ∈ st.payments.filter (fun q => q.userId == u.id && q.authority == a) := by
    rw [hp2]
    exact List.mem_singleton_self p
  have hqp := (List.mem_filter.mp hpm).2
  refine ⟨by rw [hfull], ?_, ?_⟩
  · rw [hfull]
    show paymentsFor (savePayment st (failedWith p msg)) u.id a = [failedWith p msg]
    rw [paymentsFor, savePayment]
    exact filter_replaceByKey_singleton (fun q : Payment => q.id)
      (fun q : Payment => q.userId == u.id && q.authority == a) st.payments p (failedWith p msg)
      hp2 hnd rfl hqp
  · rw [hfull]
    show trStatus? (saveTeamRequest (savePayment st (failedWith p msg))
      { tr with status := TRStatus.PAYMENT_REJECTED }) tid = some TRStatus.PAYMENT_REJECTED
    rw [trStatus?]
    have hft : findTeamRequest (saveTeamRequest (savePayment st (failedWith p msg))
        { tr with status := TRStatus.PAYMENT_REJECTED }) tid =
        some { tr with status := TRStatus.PAYMENT_REJECTED } := by
      rw [findTeamRequest, saveTeamRequest]
      exact find?_replaceByKey (fun t : TeamRequest => t.id) (fun t : TeamRequest => t.id == tid)
        (savePayment st (failedWith p msg)).teamRequests tr
        { tr with status := TRStatus.PAYMENT_REJECTED } hfindtr2 rfl (beq_iff_eq.mpr htrid)
    rw [hft]
    rfl

theorem foldl_preserves {α β : Type} (proj : St → α) (f : St → β → St) (l : List β) (st : St)
    (h : ∀ s b, proj (f s b) = proj s) : proj (l.foldl f st) = proj st := by
  induction l generalizing st with
  | nil => rfl
  | cons b l ih => rw [List.foldl_cons, ih, h]

theorem verify_pending_code100 (gw : Gateway) (now : Nat) (u : User) (a : String) (st : St)
    (p : Payment) (tid : Nat) (tr : TeamRequest) (d : GwVerifyResp)
    (hauth : u.isAuthenticated = true) (hp : paymentsFor st u.id a = [p])
    (hnd : (st.payments.map (fun q => q.id)).Nodup)
    (hpend : p.status = PayStatus.PENDING)
    (hverify : gw.verify a = GwAnswer.ok d)
    (hcode : d.code = 100)
    (hmeta : p.metadata.regId = none)
    (htt : p.targetType = TargetType.COMPETITION)
    (hparse : pyInt? p.targetId = some tid)
    (hfindtr : findTeamRequest st tid = some tr) :
    (verify_by_authority gw now u a st).2 = Except.ok (successWith p d) ∧
    paymentsFor (verify_by_authority gw now u a st).1 u.id a = [successWith p d] ∧
    trStatus? (verify_by_authority gw now u a st).1 tid = some TRStatus.FINAL := by
  have hpendb : (p.status != PayStatus.PENDING) = false := by
    rw [hpend]
    simp
  have hcodeb : (d.code == 100) = true := beq_iff_eq.mpr hcode
  have hfindtr2 : (savePayment st (successWith p d)).teamRequests.find? (fun t => t.id == tid) =
      some tr := hfindtr
  have htrp := List.find?_some hfindtr2
  have htrid : tr.id = tid := beq_iff_eq.mp htrp
  have hfind3 : findTeamRequest (savePayment st (successWith p d)) tid = some tr := hfindtr
  have hbody : verify_by_authority_body gw now u a st =
      ((mark_payment_final (savePayment st (successWith p d)) tr).1,
       Except.ok (successWith p d)) := by
    rw [verify_by_authority_body, hauth]
    simp only [Bool.not_true, Bool.false_eq_true, if_false]
    rw [hp]
    dsimp only
    rw [hpendb]
    simp only [Bool.false_eq_true, if_false]
    rw [hverify]
    dsimp only
    rw [hcodeb]
    simp only [if_true]
    have hhook : on_payment_success now (savePayment st (successWith p d)) (successWith p d) =
        ((mark_payment_final (savePayment st (successWith p d)) tr).1, Except.ok ()) := by
      rw [on_payment_success]
      have h1 : (successWith p d).targetType = TargetType.COMPETITION := htt
      rw [h1]
      dsimp only
      have h2 : pyInt? (successWith p d).targetId = some tid := hparse
      rw [h2]
      dsimp only
      rw [hfind3]
    simp only [successWith] at hhook
    rw [hhook]
    dsimp only
    rw [hmeta]
    rfl
  have hfull : verify_by_authority gw now u a st =
      ((mark_payment_final (savePayment st (successWith p d)) tr).1,
       Except.ok (successWith p d)) := by
    rw [verify_by_authority, atomic, hbody]
  have hp2 : st.payments.filter (fun q => q.userId == u.id && q.authority == a) = [p] := hp
  have hpm : p ∈ st.payments.filter (fun q => q.userId == u.id && q.authority == a) := by
    rw [hp2]
    exact List.mem_singleton_self p
  have hqp := (List.mem_filter.mp hpm).2
  have hmfp : (mark_payment_final (savePayment st (successWith p d)) tr).1.payments =
      (savePayment st (successWith p d)).payments := by
    rw [mark_payment_final]
    dsimp only
    exact foldl_preserves (fun s : St => s.payments) _ _ _ (fun s b => rfl)
  have hmft : (mark_payment_final (savePayment st (successWith p d)) tr).1.teamRequests =
      (saveTeamRequest (savePayment st (successWith p d))
        { tr with status := TRStatus.FINAL }).teamRequests := by
    rw [mark_payment_final]
    dsimp only
    exact foldl_preserves (fun s : St => s.teamRequests) _ _ _ (fun s b => rfl)
  refine ⟨by rw [hfull], ?_, ?_⟩
  · rw [hfull, paymentsFor, hmfp, savePayment]
    exact filter_replaceByKey_singleton (fun q : Payment => q.id)
      (fun q : Payment => q.userId == u.id && q.authority == a) st.payments p (successWith p d)
      hp2 hnd rfl hqp
  · rw [hfull, trStatus?, findTeamRequest, hmft, saveTeamRequest]
    have hft := find?_replaceByKey (fun t : TeamRequest => t.id) (fun t : TeamRequest => t.id == tid)
      (savePayment st (successWith p d)).teamRequests tr
      { tr with status := TRStatus.FINAL } hfindtr2 rfl (beq_iff_eq.mpr htrid)
    rw [hft]
    rfl

theorem verify_pending_badcode (gw : Gateway) (now : Nat) (u : User) (a : String) (st : St)
    (p : Payment) (tid : Nat) (tr : TeamRequest) (d : GwVerifyResp)
    (hauth : u.isAuthenticated = true) (hp : paymentsFor st u.id a = [p])
    (hnd : (st.payments.map (fun q => q.id)).Nodup)
    (hpend : p.status = PayStatus.PENDING)
    (hverify : gw.verify a = GwAnswer.ok d)
    (hcode : d.code ≠ 100)
    (htt : p.targetType = TargetType.COMPETITION)
    (hparse : pyInt? p.targetId = some tid)
    (hfindtr : findTeamRequest st tid = some tr) :
    (verify_by_authority gw now u a st).2 = Except.ok (failedWithCode p d) ∧
    paymentsFor (verify_by_authority gw now u a st).1 u.id a = [failedWithCode p d] ∧
    trStatus? (verify_by_authority gw now u a st).1 tid = some TRStatus.PAYMENT_REJECTED := by
  have hpendb : (p.status != PayStatus.PENDING) = false := by
    rw [hpend]
    simp
  have hcodeb : (d.code == 100) = false := beq_eq_false_iff_ne.mpr hcode
  have hfindtr2 : (savePayment st (failedWithCode p d)).teamRequests.find? (fun t => t.id == tid) =
      some tr := hfindtr
  have htrp := List.find?_some hfindtr2
  have htrid : tr.id = tid := beq_iff_eq.mp htrp
  have hfind3 : findTeamRequest (savePayment st (failedWithCode p d)) tid = some tr := hfindtr
  have hbody : verify_by_authority_body gw now u a st =
      (sendEmail
        (saveTeamRequest (savePayment st (failedWithCode p d))
          { tr with status := TRStatus.PAYMENT_REJECTED })
        (userEmail
          (saveTeamRequest (savePayment st (failedWithCode p d))
            { tr with status := TRStatus.PAYMENT_REJECTED })
          tr.submitterId)
        "COMPETITION_PAYMENT_REJECTED",
       Except.ok (failedWithCode p d)) := by
    rw [verify_by_authority_body, hauth]
    simp only [Bool.not_true, Bool.false_eq_true, if_false]
    rw [hp]
    dsimp only
    rw [hpendb]
    simp only [Bool.false_eq_true, if_false]
    rw [hverify]
    dsimp only
    rw [hcodeb]
    simp only [Bool.false_eq_true, if_false]
    have hhook : on_payment_failure (savePayment st (failedWithCode p d)) (failedWithCode p d) =
        ((mark_payment_rejected (savePayment st (failedWithCode p d)) tr).1, Except.ok ()) := by
      rw [on_payment_failure]
      have h1 : (failedWithCode p d).targetType = TargetType.COMPETITION := htt
      rw [h1]
      dsimp only
      have h2 : pyInt? (failedWithCode p d).targetId = some tid := hparse
      rw [h2]
      dsimp only
      rw [hfind3]
    simp only [failedWithCode] at hhook
    rw [hhook]
    dsimp only
    rw [mark_payment_rejected]
    rfl
  have hfull : verify_by_authority gw now u a st =
      (sendEmail
        (saveTeamRequest (savePayment st (failedWithCode p d))
          { tr with status := TRStatus.PAYMENT_REJECTED })
        (userEmail
          (saveTeamRequest (savePayment st (failedWithCode p d))
            { tr with status := TRStatus.PAYMENT_REJECTED })
          tr.submitterId)
        "COMPETITION_PAYMENT_REJECTED",
       Except.ok (failedWithCode p d)) := by
    rw [verify_by_authority, atomic, hbody]
  have hp2 : st.payments.filter (fun q => q.userId == u.id && q.authority == a) = [p] := hp
  have hpm : p ∈ st.payments.filter (fun q => q.userId == u.id && q.authority == a) := by
    rw [hp2]
    exact List.mem_singleton_self p
  have hqp := (List.mem_filter.mp hpm).2
  refine ⟨by rw [hfull], ?_, ?_⟩
  · rw [hfull]
    show paymentsFor (savePayment st (failedWithCode p d)) u.id a = [failedWithCode p d]
    rw [paymentsFor, savePayment]
    exact filter_replaceByKey_singleton (fun q : Payment => q.id)
      (fun q : Payment => q.userId == u.id && q.authority == a) st.payments p (failedWithCode p d)
      hp2 hnd rfl hqp
  · rw [hfull]
    show trStatus? (saveTeamRequest (savePayment st (failedWithCode p d))
      { tr with status := TRStatus.PAYMENT_REJECTED }) tid = some TRStatus.PAYMENT_REJECTED
    rw [trStatus?]
    have hft : findTeamRequest (saveTeamRequest (savePayment st (failedWithCode p d))
        { tr with status := TRStatus.PAYMENT_REJECTED }) tid =
        some { tr with status := TRStatus.PAYMENT_REJECTED } := by
      rw [findTeamRequest, saveTeamRequest]
      exact find?_replaceByKey (fun t : TeamRequest => t.id) (fun t : TeamRequest => t.id == tid)
        (savePayment st (failedWithCode p d)).teamRequests tr
        { tr with status := TRStatus.PAYMENT_REJECTED } hfindtr2 rfl (beq_iff_eq.mpr htrid)
    rw [hft]
    rfl

theorem verify_by_authority_contract :
    (∀ (gw : Gateway) (now : Nat) (u : User) (a : String) (st : St),
      u.isAuthenticated = true → paymentsFor st u.id a = [] →
      verify_by_authority gw now u a st =
        (st, Except.error (Err.api EC.PAY_NOT_FOUND_FOR_USER 404))) ∧
    (∀ (gw gw2 : Gateway) (now now2 : Nat) (u : User) (a : String) (st : St) (p : Payment),
      u.isAuthenticated = true → paymentsFor st u.id a = [p] → p.status ≠ PayStatus.PENDING →
      verify_by_authority gw now u a st = (st, Except.ok p) ∧
      verify_by_authority gw now u a st = verify_by_authority gw2 now2 u a st) ∧
    (∀ (gw : Gateway) (now : Nat) (u : User) (a : String) (st : St) (p : Payment)
        (tid : Nat) (tr : TeamRequest) (msg : String),
      u.isAuthenticated = true → paymentsFor st u.id a = [p] →
      (st.payments.map (fun q => q.id)).Nodup → p.status = PayStatus.PENDING →
      gw.verify a = GwAnswer.transportError msg →
      p.targetType = TargetType.COMPETITION → pyInt? p.targetId = some tid →
      findTeamRequest st tid = some tr →
      (verify_by_authority gw now u a st).2 = Except.ok (failedWith p msg) ∧
      paymentsFor (verify_by_authority gw now u a st).1 u.id a = [failedWith p msg] ∧
      trStatus? (verify_by_authority gw now u a st).1 tid = some TRStatus.PAYMENT_REJECTED) ∧
    (∀ (gw : Gateway) (now : Nat) (u : User) (a : String) (st : St) (p : Payment)
        (tid : Nat) (tr : TeamRequest) (d : GwVerifyResp),
      u.isAuthenticated = true → paymentsFor st u.id a = [p] →
      (st.payments.map (fun q => q.id)).Nodup → p.status = PayStatus.PENDING →
      gw.verify a = GwAnswer.ok d → d.code = 100 → p.metadata.regId = none →
      p.targetType = TargetType.COMPETITION → pyInt? p.targetId = some tid →
      findTeamRequest st tid = some tr →
      ((verify_by_authority gw now u a st).2 = Except.ok (successWith p d) ∧
       paymentsFor (verify_by_authority gw now u a st).1 u.id a = [successWith p d] ∧
       trStatus? (verify_by_authority gw now u a st).1 tid = some TRStatus.FINAL) ∧
      (∀ (gw2 : Gateway) (now2 : Nat),
        verify_by_authority gw2 now2 u a (verify_by_authority gw now u a st).1 =
          ((verify_by_authority gw now u a st).1, Except.ok (successWith p d)))) ∧
    (∀ (gw : Gateway) (now : Nat) (u : User) (a : String) (st : St) (p : Payment)
        (tid : Nat) (tr : TeamRequest) (d : GwVerifyResp),
      u.isAuthenticated = true → paymentsFor st u.id a = [p] →
      (st.payments.map (fun q => q.id)).Nodup → p.status = PayStatus.PENDING →
      gw.verify a = GwAnswer.ok d → d.code ≠ 100 →
      p.targetType = TargetType.COMPETITION → pyInt? p.targetId = some tid →
      findTeamRequest st tid = some tr →
      (verify_by_authority gw now u a st).2 = Except.ok (failedWithCode p d) ∧
      paymentsFor (verify_by_authority gw now u a st).1 u.id a = [failedWithCode p d] ∧
      trStatus? (verify_by_authority gw now u a st).1 tid = some TRStatus.PAYMENT_REJECTED) := by
  refine ⟨?_, ?_, ?_, ?_, ?_⟩
  · intro gw now u a st hauth hp
    exact verify_notfound gw now u a st hauth hp
  · intro gw gw2 now now2 u a st p hauth hp hnp
    exact ⟨verify_nonpending gw now u a st p hauth hp hnp,
      (verify_nonpending gw now u a st p hauth hp hnp).trans
        (verify_nonpending gw2 now2 u a st p hauth hp hnp).symm⟩
  · intro gw now u a st p tid tr msg hauth hp hnd hpend hverify htt hparse hfindtr
    exact verify_pending_transport gw now u a st p tid tr msg hauth hp hnd hpend hverify htt
      hparse hfindtr
  · intro gw now u a st p tid tr d hauth hp hnd hpend hverify hcode hmeta htt hparse hfindtr
    have hmain := verify_pending_code100 gw now u a st p tid tr d hauth hp hnd hpend hverify
      hcode hmeta htt hparse hfindtr
    refine ⟨hmain, ?_⟩
    intro gw2 now2
    have hterm : (successWith p d).status ≠ PayStatus.PENDING := by
      simp [successWith]
    exact verify_nonpending gw2 now2 u a (verify_by_authority gw now u a st).1
      (successWith p d) hauth hmain.2.1 hterm
  · intro gw now u a st p tid tr d hauth hp hnd hpend hverify hcode htt hparse hfindtr
    exact verify_pending_badcode gw now u a st p tid tr d hauth hp hnd hpend hverify hcode htt
      hparse hfindtr

theorem verify_by_authority_contract_witness :
    (verify_by_authority gwVerifyOk 9 userStd "AUTH4" stVerify).2 =
      Except.ok (successWith payPendingComp
        { code := 100, refId := "R9", cardPan := "P9", cardHash := "H9", message := "OK" }) ∧
    trStatus? (verify_by_authority gwVerifyOk 9 userStd "AUTH4" stVerify).1 4 =
      some TRStatus.FINAL ∧
    verify_by_authority gwDummy 11 userStd "AUTH4"
        (verify_by_authority gwVerifyOk 9 userStd "AUTH4" stVerify).1 =
      ((verify_by_authority gwVerifyOk 9 userStd "AUTH4" stVerify).1,
        Except.ok (successWith payPendingComp
          { code := 100, refId := "R9", cardPan := "P9", cardHash := "H9", message := "OK" })) := by
  have h := verify_by_authority_contract.2.2.2.1 gwVerifyOk 9 userStd "AUTH4" stVerify
    payPendingComp 4 trAwaitingPayment
    { code := 100, refId := "R9", cardPan := "P9", cardHash := "H9", message := "OK" }
    rfl rfl (by decide) rfl rfl rfl rfl rfl rfl rfl
  exact ⟨h.1.1, h.1.2.2, h.2 gwDummy 11⟩
